import Mathlib

/-!
# PaddleBackend (fastdeploy/backends/paddle/paddle_backend.cc)

A shallow embedding of the Paddle Inference backend adapter of FastDeploy and
theorems about it.

Conventions of the embedding.

* `std::map<std::string, T>` is an association list kept in strictly ascending
  key order (`StdMap.WF`); iteration is list order, `find` is a lookup and
  `operator[]`-assignment is an ordered insert.
* The third-party engine (`paddle_infer::Config`, `paddle_infer::Predictor`) is
  a record of the settings made on it, respectively a record carrying the list
  of state-changing calls made on it.  Its handles are total: the engine's own
  fatal-error path is outside this development.
* `FDASSERT` failures, a null `predictor_` dereference and an escaping
  `std::length_error` or `std::bad_alloc` end the modelled execution
  (`Except Abort`).
* `int` is a 32-bit two's complement integer (`wrapInt32`).
* Log lines and engine constructions are returned as a list of `Effect`s.
-/

namespace fastdeploy

/-! ## std::map -/

/-- A `std::map<std::string, β>`: entries in iteration order. -/
abbrev StdMap (β : Type) := List (String × β)

namespace StdMap

variable {β : Type}

/-- The keys in iteration order. -/
def keys (m : StdMap β) : List String := m.map Prod.fst

/-- Well-formedness of a `std::map`: keys strictly ascending (hence unique).
The order of `std::string` is the lexicographic order of the characters. -/
def WF (m : StdMap β) : Prop := (keys m).Pairwise (fun a b => a.data < b.data)

instance (m : StdMap β) : Decidable (WF m) := by
  unfold WF; infer_instance

/-- `m.find(k)`: `none` stands for `m.end()`. -/
def find : StdMap β → String → Option β
  | [], _ => none
  | (k', v) :: rest, k => if k = k' then some v else find rest k

/-- `m[k] = v` (`m[k].assign(...)`): replaces the value of an existing key or
inserts the key at its place in key order. -/
def assign : StdMap β → String → β → StdMap β
  | [], k, v => [(k, v)]
  | (k', v') :: rest, k, v =>
    if k.data < k'.data then (k, v) :: (k', v') :: rest
    else if k = k' then (k, v) :: rest
    else (k', v') :: assign rest k v

/-- `m.size()`. -/
def size (m : StdMap β) : Nat := m.length

/-- Two maps have the same set of keys. -/
def SameKeys {γ : Type} (m : StdMap β) (m' : StdMap γ) : Prop := ∀ k, k ∈ keys m ↔ k ∈ keys m'

end StdMap

/-! ## Aborts and effects -/

/-- Ways in which the modelled execution ends without returning. -/
inductive Abort where
  /-- Modelled from the spec: the macro `FDASSERT(cond, fmt, ...)` (utils.h is
  not part of the sources at hand); a false condition is a fatal failure that
  reports the formatted text. -/
  | fdassert (message : String)
  /-- `predictor_->...` on an empty `predictor_`. -/
  | nullPredictor
  /-- `std::vector<T>(n, v)` with `n` above `max_size()`. -/
  | lengthError
  /-- `std::vector<T>(n, v)` whose storage the allocator does not serve. -/
  | badAlloc
  deriving DecidableEq, Repr

deriving instance DecidableEq for Except

inductive LogLevel where
  | info | warning | error
  deriving DecidableEq, Repr

/-! ## Options -/

/-- `TrtBackendOption` (declared in a header that is not part of the sources at
hand): the fields read by the Paddle backend. -/
structure TrtBackendOption where
  enable_fp16 : Bool := false
  max_workspace_size : Nat := 1073741824
  serialize_file : String := ""
  max_shape : StdMap (List Int) := []
  min_shape : StdMap (List Int) := []
  opt_shape : StdMap (List Int) := []
  deriving DecidableEq, Repr

/-- `PaddleBackendOption` (declared in paddle_backend.h, which is not part of the
sources at hand): the fields read by the Paddle backend. -/
structure PaddleBackendOption where
  use_gpu : Bool := false
  gpu_mem_init_size : Int := 100
  gpu_id : Int := 0
  enable_trt : Bool := false
  trt_option : TrtBackendOption := {}
  collect_shape : Bool := false
  enable_mkldnn : Bool := true
  mkldnn_cache_size : Int := 1
  enable_log_info : Bool := false
  delete_pass_names : List String := []
  cpu_thread_num : Int := 8
  enable_pinned_memory : Bool := false
  deriving DecidableEq, Repr

/-! ## GetDynamicShapeFromOption (lines 213-241) -/

/-- The `print_shape` lambda: `[d0, d1, ...]`. -/
def print_shape (shape : List Int) : String :=
  "[" ++ ", ".intercalate (shape.map toString) ++ "]"

/-- The three output maps of `GetDynamicShapeFromOption` and the lines it logs. -/
structure DynamicShape where
  max_shape : StdMap (List Int)
  min_shape : StdMap (List Int)
  opt_shape : StdMap (List Int)
  info : List String
  deriving DecidableEq, Repr

/-- The loop of `GetDynamicShapeFromOption` over the remaining entries `items`
of `option.trt_option.min_shape`. -/
def GetDynamicShapeFromOption.loop (option : PaddleBackendOption) :
    List (String × List Int) → DynamicShape → Except Abort DynamicShape
  | [], acc => .ok acc
  | item :: items, acc =>
    match option.trt_option.max_shape.find item.1, option.trt_option.opt_shape.find item.1 with
    | none, _ =>
      .error (.fdassert ("Cannot find " ++ item.1 ++ " in TrtBackendOption::min_shape."))
    | some _, none =>
      .error (.fdassert ("Cannot find " ++ item.1 ++ " in TrtBackendOption::opt_shape."))
    | some max_v, some opt_v =>
      GetDynamicShapeFromOption.loop option items
        { max_shape := acc.max_shape.assign item.1 max_v
          opt_shape := acc.opt_shape.assign item.1 opt_v
          min_shape := acc.min_shape.assign item.1 item.2
          info := acc.info ++
            [item.1 ++ ": the max shape = " ++ print_shape max_v
              ++ ", the min shape = " ++ print_shape item.2
              ++ ", the opt shape = " ++ print_shape opt_v] }

/-- `PaddleBackend::GetDynamicShapeFromOption(option, max_shape, min_shape, opt_shape)`;
the three map arguments are the maps the pointers refer to on entry. -/
def GetDynamicShapeFromOption (option : PaddleBackendOption)
    (max_shape min_shape opt_shape : StdMap (List Int)) : Except Abort DynamicShape :=
  GetDynamicShapeFromOption.loop option option.trt_option.min_shape
    { max_shape := max_shape, min_shape := min_shape, opt_shape := opt_shape, info := [] }

/-- The shape bounds of an option are complete: every name with a min shape has
a max shape and an opt shape. -/
def BoundsComplete (option : PaddleBackendOption) : Prop :=
  ∀ k ∈ StdMap.keys option.trt_option.min_shape,
    k ∈ StdMap.keys option.trt_option.max_shape ∧ k ∈ StdMap.keys option.trt_option.opt_shape

/-! ## The engine configuration (paddle_infer::Config) -/

/-- `paddle_infer::PrecisionType`. -/
inductive PrecisionType where
  | kFloat32 | kHalf | kInt8
  deriving DecidableEq, Repr

/-- The arguments of one `Config::EnableTensorRtEngine` call.  `use_calib_mode`
is `none` when the call leaves the sixth argument to the engine's default. -/
structure TensorRtEngine where
  workspace_size : Nat
  max_batch_size : Int
  min_subgraph_size : Int
  precision : PrecisionType
  use_static : Bool
  use_calib_mode : Option Bool
  deriving DecidableEq, Repr

/-- The arguments of one `Config::SetTRTDynamicShapeInfo` call. -/
structure TRTDynamicShapeInfo where
  min_input_shape : StdMap (List Int)
  max_input_shape : StdMap (List Int)
  optim_input_shape : StdMap (List Int)
  deriving DecidableEq, Repr

/-- The settings made on a `paddle_infer::Config`. -/
structure Config where
  model : Option (String × String) := none
  use_gpu : Bool := false
  gpu_memory_pool_init_size : Int := 100
  gpu_device_id : Int := 0
  tensorrt : Option TensorRtEngine := none
  trt_dynamic_shape : Option TRTDynamicShapeInfo := none
  tuned_trt_dynamic_shape : Option (String × Bool) := none
  collect_shape_range_info : Option String := none
  mkldnn : Bool := false
  mkldnn_cache_capacity : Option Int := none
  mkldnn_int8 : Bool := false
  glog_info : Bool := true
  deleted_passes : List String := []
  cpu_math_library_num_threads : Int := 1
  deriving DecidableEq, Repr

namespace Config

def SetModel (c : Config) (model_file params_file : String) : Config :=
  { c with model := some (model_file, params_file) }

def EnableUseGpu (c : Config) (memory_pool_init_size_mb device_id : Int) : Config :=
  { c with use_gpu := true, gpu_memory_pool_init_size := memory_pool_init_size_mb,
           gpu_device_id := device_id }

def DisableGpu (c : Config) : Config := { c with use_gpu := false }

def EnableTensorRtEngine (c : Config) (workspace_size : Nat) (max_batch_size min_subgraph_size : Int)
    (precision : PrecisionType) (use_static : Bool) (use_calib_mode : Option Bool) : Config :=
  { c with
    tensorrt := some ⟨workspace_size, max_batch_size, min_subgraph_size, precision,
      use_static, use_calib_mode⟩ }

def SetTRTDynamicShapeInfo (c : Config) (min_shape max_shape opt_shape : StdMap (List Int)) : Config :=
  { c with trt_dynamic_shape := some ⟨min_shape, max_shape, opt_shape⟩ }

def EnableTunedTensorRtDynamicShape (c : Config) (shape_range_info_path : String)
    (allow_build_at_runtime : Bool) : Config :=
  { c with tuned_trt_dynamic_shape := some (shape_range_info_path, allow_build_at_runtime) }

def CollectShapeRangeInfo (c : Config) (shape_range_info_path : String) : Config :=
  { c with collect_shape_range_info := some shape_range_info_path }

def EnableMKLDNN (c : Config) : Config := { c with mkldnn := true }

def SetMkldnnCacheCapacity (c : Config) (capacity : Int) : Config :=
  { c with mkldnn_cache_capacity := some capacity }

def EnableMkldnnInt8 (c : Config) : Config := { c with mkldnn_int8 := true }

def DisableGlogInfo (c : Config) : Config := { c with glog_info := false }

/-- `pass_builder()->DeletePass(name)`. -/
def DeletePass (c : Config) (name : String) : Config :=
  { c with deleted_passes := c.deleted_passes ++ [name] }

def SetCpuMathLibraryNumThreads (c : Config) (n : Int) : Config :=
  { c with cpu_math_library_num_threads := n }

end Config

/-! ## Tensors and the engine instance (paddle_infer::Predictor) -/

/-- `paddle_infer::DataType`. -/
inductive DataType where
  | FLOAT32 | INT64 | INT32 | UINT8 | INT8 | FLOAT16
  deriving DecidableEq, Repr

/-- `FDDataType`. -/
inductive FDDataType where
  | BOOL | INT16 | INT32 | INT64 | FP16 | FP32 | FP64 | UINT8 | INT8 | UNKNOWN
  deriving DecidableEq, Repr

/-- `FDTensor` (declared in a header that is not part of the sources at hand):
the fields used here; the buffer is an uninterpreted list of words. -/
structure FDTensor where
  name : String := ""
  shape : List Int := []
  dtype : FDDataType := .INT8
  data : List Int := []
  is_pinned_memory : Bool := false
  deriving DecidableEq, Repr

/-- `TensorInfo`. -/
structure TensorInfo where
  name : String := ""
  shape : List Int := []
  dtype : FDDataType := .UNKNOWN
  deriving DecidableEq, Repr

/-- A host buffer handed to `Tensor::CopyFromCpu`: `std::vector<float>`,
`std::vector<int>` or `std::vector<int64_t>`. -/
inductive HostBuffer where
  | f32 (data : List Rat)
  | i32 (data : List Int)
  | i64 (data : List Int)
  deriving DecidableEq

/-- The contents of an engine tensor handle. -/
structure EngineTensor where
  shape : List Int := []
  dtype : DataType := .FLOAT32
  data : List Int := []
  deriving DecidableEq, Repr

/-- The state-changing calls made on an engine instance and its handles. -/
inductive EngineEvent where
  /-- The handle of input `name`: `Reshape(shape)`. -/
  | Reshape (name : String) (shape : List Int)
  /-- The handle of input `name`: `CopyFromCpu(data)`. -/
  | CopyFromCpu (name : String) (data : HostBuffer)
  /-- The handle of input `name` bound to the caller's tensor. -/
  | Share (name : String) (tensor : FDTensor)
  /-- The call `Run()`. -/
  | Run
  deriving DecidableEq

/-- A `paddle_infer::Predictor`: what it reports, the calls made on it so far,
and the contents of its output slots as a function of those calls. -/
structure Predictor where
  config : Config
  input_names : List String
  input_types : StdMap DataType
  output : List EngineEvent → String → EngineTensor
  events : List EngineEvent := []

namespace Predictor

def record (p : Predictor) (ev : EngineEvent) : Predictor :=
  { p with events := p.events ++ [ev] }

def Run (p : Predictor) : Predictor := p.record .Run

/-- The contents behind `GetOutputHandle(name)`. -/
def GetOutputHandle (p : Predictor) (name : String) : EngineTensor := p.output p.events name

end Predictor

/-- Modelled from the spec: the helper `PaddleDataTypeToFD` (paddle/util.cc is
not part of the sources at hand), the fixed translation table of element types. -/
def PaddleDataTypeToFD : DataType → FDDataType
  | .FLOAT32 => .FP32
  | .INT64 => .INT64
  | .INT32 => .INT32
  | .UINT8 => .UINT8
  | .INT8 => .INT8
  | .FLOAT16 => .FP16

/-- Modelled from the spec: the helper `ShareTensorFromFDTensor` (paddle/util.cc
is not part of the sources at hand), which binds the caller's tensor data into
the engine's named input slot by reference. -/
def ShareTensorFromFDTensor (p : Predictor) (name : String) (tensor : FDTensor) : Predictor :=
  p.record (.Share name tensor)

/-- Modelled from the spec: the helper `CopyTensorToCpu` (paddle/util.cc is not
part of the sources at hand), which copies the contents of the engine's output
slot into the caller's output tensor. -/
def CopyTensorToCpu (handle : EngineTensor) (fd_tensor : FDTensor) : FDTensor :=
  { fd_tensor with shape := handle.shape, dtype := PaddleDataTypeToFD handle.dtype,
                   data := handle.data }

/-! ## The backend instance and its environment -/

/-- One declared tensor of `paddle2onnx::PaddleReader`; `shape` holds the
`rank` entries of the shape array. -/
structure ReaderTensorInfo where
  name : String
  shape : List Int
  dtype : Int
  deriving DecidableEq, Repr

/-- What `paddle2onnx::PaddleReader` reports; `num_inputs` and `num_outputs`
are the lengths of the two lists. -/
structure PaddleReader where
  is_quantize_model : Bool
  inputs : List ReaderTensorInfo
  outputs : List ReaderTensorInfo
  deriving DecidableEq, Repr

/-- The data members of `PaddleBackend` (paddle_backend.h and the base class,
not part of the sources at hand); a freshly constructed instance is `{}`. -/
structure PaddleBackend where
  option_ : PaddleBackendOption := {}
  config_ : Config := {}
  predictor_ : Option Predictor := none
  inputs_desc_ : List TensorInfo := []
  outputs_desc_ : List TensorInfo := []
  initialized_ : Bool := false

/-- What surrounds the backend: the compile-time switch, the file system, the
model reader, the path helpers, the engine factory, and the allocator
(`allocate n` tells whether a request for `n` bytes is served). -/
structure Env where
  ENABLE_TRT_BACKEND : Bool
  ReadBinaryFromFile : String → Option String
  PaddleReader : String → PaddleReader
  ReaderDataTypeToFD : Int → FDDataType
  GetDirFromPath : String → String
  PathJoin : String → String → String
  CheckFileExists : String → Bool
  CreatePredictor : Config → Predictor
  allocate : Nat → Bool

/-- What a call leaves behind outside the instance. -/
inductive Effect where
  | log (level : LogLevel) (message : String)
  /-- Line 136: the throwaway engine of the shape collection. -/
  | CreatePredictorTmp (config : Config)
  /-- Line 151: the engine of the instance. -/
  | CreatePredictor (config : Config)
  deriving DecidableEq, Repr

def FDINFO (message : String) : Effect := .log .info message
def FDWARNING (message : String) : Effect := .log .warning message
def FDERROR (message : String) : Effect := .log .error message

/-! ## SetTRTDynamicShapeToConfig (lines 201-211) and BuildOption (lines 21-64) -/

def SetTRTDynamicShapeToConfig (self : PaddleBackend) (option : PaddleBackendOption) :
    Except Abort (PaddleBackend × List Effect) :=
  match GetDynamicShapeFromOption option [] [] [] with
  | .error e => .error e
  | .ok r =>
    let config :=
      if r.min_shape.size > 0 then
        self.config_.SetTRTDynamicShapeInfo r.min_shape r.max_shape r.opt_shape
      else self.config_
    .ok ({ self with config_ := config },
      r.info.map FDINFO ++
        [FDINFO "Start setting trt dynamic shape.", FDINFO "Finish setting trt dynamic shape."])

def trtCacheWarning (serialize_file : String) : Effect :=
  FDWARNING ("Detect that tensorrt cache file has been set to " ++ serialize_file
    ++ ", but while enable paddle2trt, please notice that the cache file will save to the directory where paddle model saved.")

/-- Lines 23-48 of `BuildOption`: the device branch. -/
def BuildOption.device (ENABLE_TRT_BACKEND : Bool) (self : PaddleBackend)
    (option : PaddleBackendOption) : Except Abort (PaddleBackend × List Effect) :=
  if option.use_gpu then
    let self := { self with
      config_ := self.config_.EnableUseGpu option.gpu_mem_init_size option.gpu_id }
    if option.enable_trt then
      if ENABLE_TRT_BACKEND then
        let precision := if option.trt_option.enable_fp16 then PrecisionType.kHalf
          else PrecisionType.kFloat32
        let use_static := decide (option.trt_option.serialize_file ≠ "")
        let warn := if option.trt_option.serialize_file ≠ "" then
          [trtCacheWarning option.trt_option.serialize_file] else []
        let self := { self with
          config_ := self.config_.EnableTensorRtEngine option.trt_option.max_workspace_size
            32 3 precision use_static none }
        match SetTRTDynamicShapeToConfig self option with
        | .error e => .error e
        | .ok (self, fx) => .ok (self, warn ++ fx)
      else
        .ok (self, [FDWARNING "The FastDeploy is not compiled with TensorRT backend, so will fallback to GPU with Paddle Inference Backend."])
    else .ok (self, [])
  else
    let self := { self with config_ := self.config_.DisableGpu }
    if option.enable_mkldnn then
      .ok ({ self with
        config_ := (self.config_.EnableMKLDNN).SetMkldnnCacheCapacity option.mkldnn_cache_size }, [])
    else .ok (self, [])

/-- Lines 49-63 of `BuildOption`: logging, pass deletion, thread count. -/
def BuildOption.common (self : PaddleBackend) (option : PaddleBackendOption) :
    PaddleBackend × List Effect :=
  let c := self.config_
  let c := if !option.enable_log_info then c.DisableGlogInfo else c
  let c := option.delete_pass_names.foldl (fun c name => c.DeletePass name) c
  let fx := option.delete_pass_names.map (fun name => FDINFO ("Delete pass : " ++ name))
  let c := if option.cpu_thread_num ≤ 0 then c.SetCpuMathLibraryNumThreads 8
    else c.SetCpuMathLibraryNumThreads option.cpu_thread_num
  ({ self with config_ := c }, fx)

/-- `PaddleBackend::BuildOption(option)`. -/
def BuildOption (ENABLE_TRT_BACKEND : Bool) (self : PaddleBackend)
    (option : PaddleBackendOption) : Except Abort (PaddleBackend × List Effect) :=
  let self := { self with option_ := option }
  match BuildOption.device ENABLE_TRT_BACKEND self option with
  | .error e => .error e
  | .ok (self, fx) =>
    let (self, fx2) := BuildOption.common self option
    .ok (self, fx ++ fx2)

/-! ## CollectShapeRun (lines 243-279) -/

/-- Reduction of an integer to the range of a 32-bit `int`. -/
def wrapInt32 (x : Int) : Int := (x + 2147483648) % 4294967296 - 2147483648

/-- `std::accumulate(first, last, init, std::multiplies<int>())` on `int`s. -/
def accumulate_multiplies (shape_value : List Int) (init : Int) : Int :=
  shape_value.foldl (fun acc d => wrapInt32 (acc * d)) init

/-- `std::vector<T> input_data(shape_num, one)` with an `int` count and elements
of `size` bytes: the count is converted to `size_t`, so a negative count exceeds
`max_size()` (`std::length_error`); otherwise storage for `shape_num` elements
is requested from the allocator, which may not serve it (`std::bad_alloc`). -/
def vector_fill {T : Type} (allocate : Nat → Bool) (size : Nat) (shape_num : Int) (one : T) :
    Except Abort (List T) :=
  if shape_num < 0 then .error .lengthError
  else if allocate (shape_num.toNat * size) then .ok (List.replicate shape_num.toNat one)
  else .error .badAlloc

/-- A call that ended early, with the engine as it was left. -/
structure Aborted where
  cause : Abort
  engine : Predictor

/-- The body of the loop of `CollectShapeRun` for one reported input name. -/
def CollectShapeRun.body (allocate : Nat → Bool) (predictor : Predictor)
    (shape : StdMap (List Int)) (name : String) : Except Aborted Predictor :=
  match shape.find name, predictor.input_types.find name with
  | some shape_value, some dtype =>
    let shape_num := accumulate_multiplies shape_value 1
    let predictor := predictor.record (.Reshape name shape_value)
    match dtype with
    | .FLOAT32 =>
      match vector_fill allocate 4 shape_num (1 : Rat) with
      | .error e => .error ⟨e, predictor⟩
      | .ok input_data => .ok (predictor.record (.CopyFromCpu name (.f32 input_data)))
    | .INT32 =>
      match vector_fill allocate 4 shape_num (1 : Int) with
      | .error e => .error ⟨e, predictor⟩
      | .ok input_data => .ok (predictor.record (.CopyFromCpu name (.i32 input_data)))
    | .INT64 =>
      match vector_fill allocate 8 shape_num (1 : Int) with
      | .error e => .error ⟨e, predictor⟩
      | .ok input_data => .ok (predictor.record (.CopyFromCpu name (.i64 input_data)))
    | _ =>
      .error ⟨.fdassert "Input data Paddle backend only supports FP32/INT32/INT64 currently.",
        predictor⟩
  | _, _ =>
    .error ⟨.fdassert ("Paddle Input name [" ++ name ++ "] is not one of the trt dynamic shape."),
      predictor⟩

/-- The loop of `CollectShapeRun` over the remaining reported input names. -/
def CollectShapeRun.loop (allocate : Nat → Bool) (shape : StdMap (List Int)) :
    List String → Predictor → Except Aborted Predictor
  | [], predictor => .ok predictor
  | name :: names, predictor =>
    match CollectShapeRun.body allocate predictor shape name with
    | .error a => .error a
    | .ok predictor => CollectShapeRun.loop allocate shape names predictor

/-- `PaddleBackend::CollectShapeRun(predictor, shape)`, run with the given
allocator. -/
def CollectShapeRun (allocate : Nat → Bool) (predictor : Predictor)
    (shape : StdMap (List Int)) : Except Aborted Predictor :=
  match CollectShapeRun.loop allocate shape predictor.input_names predictor with
  | .error a => .error a
  | .ok predictor => .ok predictor.Run

/-- The element types the calibration run can fill: float32, int32, int64. -/
def DataType.supported : DataType → Bool
  | .FLOAT32 => true
  | .INT32 => true
  | .INT64 => true
  | _ => false

/-- The size in bytes of one element of the types the calibration run fills
(`float`, `int`, `int64_t`). -/
def DataType.size : DataType → Nat
  | .FLOAT32 => 4
  | .INT32 => 4
  | .INT64 => 8
  | _ => 0

/-- Calibration as the spec words it: a filler buffer of the given element
count with every element set to 1, of the engine-reported element type. -/
def specFiller : DataType → Nat → Option HostBuffer
  | .FLOAT32, count => some (.f32 (List.replicate count 1))
  | .INT32, count => some (.i32 (List.replicate count 1))
  | .INT64, count => some (.i64 (List.replicate count 1))
  | _, _ => none

/-- Calibration as the spec words it: for every reported input name, reshape
the input to its shape from the map and bind the filler buffer whose element
count is the product of all dimensions. -/
def specCalibrationEvents (input_names : List String) (input_types : StdMap DataType)
    (shape : StdMap (List Int)) : List EngineEvent :=
  input_names.flatMap fun name =>
    match shape.find name, input_types.find name with
    | some shape_value, some dtype =>
      match specFiller dtype shape_value.prod.toNat with
      | some input_data => [.Reshape name shape_value, .CopyFromCpu name input_data]
      | none => []
    | _, _ => []

/-! ## InitFromPaddle (lines 66-154) -/

/-- Lines 86-106: the reconciliation with a quantized model. -/
def InitFromPaddle.quantize (ENABLE_TRT_BACKEND : Bool) (self : PaddleBackend)
    (option : PaddleBackendOption) (is_quantize_model : Bool) :
    Except Abort (PaddleBackend × List Effect) :=
  if is_quantize_model then
    let gpu : Except Abort (PaddleBackend × List Effect) :=
      if option.use_gpu then
        let warn := [FDWARNING "The loaded model is a quantized model, while inference on GPU, please use TensorRT backend to get better performance."]
        if option.enable_trt then
          if ENABLE_TRT_BACKEND then
            let use_static := decide (option.trt_option.serialize_file ≠ "")
            let warn2 := if option.trt_option.serialize_file ≠ "" then
              [trtCacheWarning option.trt_option.serialize_file] else []
            let self := { self with
              config_ := self.config_.EnableTensorRtEngine option.trt_option.max_workspace_size
                32 3 PrecisionType.kInt8 use_static (some false) }
            match SetTRTDynamicShapeToConfig self option with
            | .error e => .error e
            | .ok (self, fx) => .ok (self, warn ++ warn2 ++ fx)
          else .ok (self, warn)
        else .ok (self, warn)
      else .ok (self, [])
    match gpu with
    | .error e => .error e
    | .ok (self, fx) =>
      if option.enable_mkldnn then
        .ok ({ self with config_ := self.config_.EnableMkldnnInt8 }, fx)
      else
        .ok (self, fx ++ [FDWARNING "The loaded model is a quantized model, while inference on CPU, please enable MKLDNN to get better performance."])
  else .ok (self, [])

/-- Lines 108-125: one descriptor from one tensor declared by the reader. -/
def InitFromPaddle.desc (e : Env) (t : ReaderTensorInfo) : TensorInfo :=
  { name := t.name, shape := t.shape, dtype := e.ReaderDataTypeToFD t.dtype }

/-- Lines 131-146: the generation of the shape range info file. -/
def InitFromPaddle.generate (e : Env) (model_file params_file shape_range_info : String)
    (option : PaddleBackendOption) : Except Abort (List Effect) :=
  let analysis_config :=
    (({} : Config).SetModel model_file params_file).CollectShapeRangeInfo shape_range_info
  let predictor_tmp := e.CreatePredictor analysis_config
  match GetDynamicShapeFromOption option [] [] [] with
  | .error a => .error a
  | .ok r =>
    match CollectShapeRun e.allocate predictor_tmp r.max_shape with
    | .error a => .error a.cause
    | .ok predictor_tmp =>
      match CollectShapeRun e.allocate predictor_tmp r.min_shape with
      | .error a => .error a.cause
      | .ok predictor_tmp =>
        match CollectShapeRun e.allocate predictor_tmp r.opt_shape with
        | .error a => .error a.cause
        | .ok _ =>
          .ok ([FDINFO "Start generating shape range info file.",
                Effect.CreatePredictorTmp analysis_config]
            ++ r.info.map FDINFO
            ++ [FDINFO "Finish generating shape range info file."])

/-- Lines 126-150: the shape collection. -/
def InitFromPaddle.collect (e : Env) (self : PaddleBackend) (model_file params_file : String)
    (option : PaddleBackendOption) : Except Abort (PaddleBackend × List Effect) :=
  if e.ENABLE_TRT_BACKEND && option.collect_shape then
    let curr_model_dir := e.GetDirFromPath model_file
    let shape_range_info := e.PathJoin curr_model_dir "shape_range_info.pbtxt"
    let generated : Except Abort (List Effect) :=
      if !e.CheckFileExists shape_range_info then
        InitFromPaddle.generate e model_file params_file shape_range_info option
      else .ok []
    match generated with
    | .error a => .error a
    | .ok fx =>
      .ok ({ self with
              config_ := self.config_.EnableTunedTensorRtDynamicShape shape_range_info false },
        fx ++ [FDINFO ("Start loading shape range info file " ++ shape_range_info
          ++ " to set TensorRT dynamic shape.")])
  else .ok (self, [])

/-- `PaddleBackend::InitFromPaddle(model_file, params_file, option)`: the value
returned, the instance afterwards and the effects. -/
def InitFromPaddle (e : Env) (self : PaddleBackend) (model_file params_file : String)
    (option : PaddleBackendOption) : Except Abort (Bool × PaddleBackend × List Effect) :=
  if self.initialized_ then
    .ok (false, self, [FDERROR "PaddleBackend is already initlized, cannot initialize again."])
  else
    let self := { self with config_ := self.config_.SetModel model_file params_file }
    match BuildOption e.ENABLE_TRT_BACKEND self option with
    | .error a => .error a
    | .ok (self, fx1) =>
      match e.ReadBinaryFromFile model_file with
      | none => .ok (false, self, fx1)
      | some contents =>
        let reader := e.PaddleReader contents
        match InitFromPaddle.quantize e.ENABLE_TRT_BACKEND self option reader.is_quantize_model with
        | .error a => .error a
        | .ok (self, fx2) =>
          let self := { self with
            inputs_desc_ := reader.inputs.map (InitFromPaddle.desc e)
            outputs_desc_ := reader.outputs.map (InitFromPaddle.desc e) }
          match InitFromPaddle.collect e self model_file params_file option with
          | .error a => .error a
          | .ok (self, fx3) =>
            .ok (true,
              { self with predictor_ := some (e.CreatePredictor self.config_)
                          initialized_ := true },
              fx1 ++ fx2 ++ fx3 ++ [Effect.CreatePredictor self.config_])

/-! ## Infer (lines 176-198) -/

/-- `outputs->resize(n)`. -/
def resize (outputs : List FDTensor) (n : Nat) : List FDTensor :=
  outputs.take n ++ List.replicate (n - outputs.length) ({ name := "" } : FDTensor)

/-- Lines 185-188: the loop binding the inputs. -/
def Infer.shareInputs : List FDTensor → Predictor → Predictor
  | [], predictor => predictor
  | input :: inputs, predictor =>
    Infer.shareInputs inputs (ShareTensorFromFDTensor predictor input.name input)

/-- Lines 192-196: the loop over the output descriptors from index `i` on. -/
def Infer.copyOutputs (predictor : Predictor) (option_ : PaddleBackendOption) :
    List TensorInfo → Nat → List FDTensor → List FDTensor
  | [], _, outputs => outputs
  | desc :: descs, i, outputs =>
    let handle := predictor.GetOutputHandle desc.name
    let outputs := outputs.modify
      (fun t => CopyTensorToCpu handle { t with is_pinned_memory := option_.enable_pinned_memory }) i
    Infer.copyOutputs predictor option_ descs (i + 1) outputs

/-- What `Infer` returns and leaves behind. -/
structure InferResult where
  ret : Bool
  self : PaddleBackend
  outputs : List FDTensor
  effects : List Effect

/-- `PaddleBackend::Infer(inputs, outputs)`; `outputs` is the container the
pointer refers to on entry. -/
def Infer (self : PaddleBackend) (inputs : List FDTensor) (outputs : List FDTensor) :
    Except Abort InferResult :=
  if inputs.length ≠ self.inputs_desc_.length then
    .ok { ret := false, self := self, outputs := outputs,
          effects := [FDERROR ("[PaddleBackend] Size of inputs(" ++ toString inputs.length
            ++ ") should keep same with the inputs of this model("
            ++ toString self.inputs_desc_.length ++ ").")] }
  else
    match self.predictor_ with
    | none => .error .nullPredictor
    | some predictor =>
      let predictor := Infer.shareInputs inputs predictor
      let predictor := predictor.Run
      let outputs := resize outputs self.outputs_desc_.length
      let outputs := Infer.copyOutputs predictor self.option_ self.outputs_desc_ 0 outputs
      .ok { ret := true, self := { self with predictor_ := some predictor },
            outputs := outputs, effects := [] }

/-! ## Lifecycle -/

/-- The initialized flag is set exactly when the engine of the instance exists. -/
def PaddleBackend.Inv (self : PaddleBackend) : Prop :=
  self.initialized_ = true ↔ self.predictor_.isSome = true

/-- The effect is the construction of the engine of the instance (line 151). -/
def Effect.isCreatePredictor : Effect → Bool
  | .CreatePredictor _ => true
  | _ => false

/-- No effect in the list is the construction of the engine of the instance. -/
def Quiet (fx : List Effect) : Prop := ∀ ev ∈ fx, Effect.isCreatePredictor ev = false

/-- How many times the engine of the instance was constructed. -/
def engineConstructions (fx : List Effect) : Nat := fx.countP Effect.isCreatePredictor

/-- One call on the public interface of the instance. -/
inductive Call where
  | BuildOption (option : PaddleBackendOption)
  | InitFromPaddle (model_file params_file : String) (option : PaddleBackendOption)
  | Infer (inputs outputs : List FDTensor)

/-- One call in its environment: the instance afterwards and the effects. -/
def step (e : Env) (self : PaddleBackend) : Call → Except Abort (PaddleBackend × List Effect)
  | .BuildOption option => BuildOption e.ENABLE_TRT_BACKEND self option
  | .InitFromPaddle model_file params_file option =>
    match InitFromPaddle e self model_file params_file option with
    | .error a => .error a
    | .ok (_, self, fx) => .ok (self, fx)
  | .Infer inputs outputs =>
    match Infer self inputs outputs with
    | .error a => .error a
    | .ok r => .ok (r.self, r.effects)

/-- A sequence of calls, each in its own environment, as long as none aborts. -/
def runCalls : PaddleBackend → List (Env × Call) → Except Abort (PaddleBackend × List Effect)
  | self, [] => .ok (self, [])
  | self, (e, call) :: calls =>
    match step e self call with
    | .error a => .error a
    | .ok (self, fx) =>
      match runCalls self calls with
      | .error a => .error a
      | .ok (self', fx') => .ok (self', fx ++ fx')

/-- The path of the shape range info file of a model. -/
def shapeRangeInfoPath (e : Env) (model_file : String) : String :=
  e.PathJoin (e.GetDirFromPath model_file) "shape_range_info.pbtxt"

/-! ## Sample instances -/

/-- An engine with one float input `x`; every output slot holds a 1x2 tensor. -/
def sampleEngine (config : Config) : Predictor :=
  { config := config
    input_names := ["x"]
    input_types := [("x", .FLOAT32)]
    output := fun _ _ => { shape := [1, 2], dtype := .FLOAT32, data := [7, 9] }
    events := [] }

/-- An initialized instance with two declared inputs and one declared output. -/
def sampleBackend : PaddleBackend :=
  { option_ := { enable_pinned_memory := true }
    predictor_ := some (sampleEngine {})
    inputs_desc_ := [{ name := "a", shape := [1, 3], dtype := .FP32 },
                     { name := "b", shape := [1], dtype := .INT64 }]
    outputs_desc_ := [{ name := "out", shape := [1, 2], dtype := .FP32 }]
    initialized_ := true }

/-- An environment with the accelerator compiled in, in which every model file
is readable and declares a quantized model with input `x` and output `out`,
no shape range info file exists, and the allocator serves up to 8 GiB. -/
def sampleEnv : Env :=
  { ENABLE_TRT_BACKEND := true
    ReadBinaryFromFile := fun _ => some "model"
    PaddleReader := fun _ =>
      { is_quantize_model := true
        inputs := [{ name := "x", shape := [-1, 3], dtype := 0 }]
        outputs := [{ name := "out", shape := [-1, 2], dtype := 0 }] }
    ReaderDataTypeToFD := fun _ => .FP32
    GetDirFromPath := fun _ => "dir"
    PathJoin := fun a b => a ++ "/" ++ b
    CheckFileExists := fun _ => false
    CreatePredictor := sampleEngine
    allocate := fun bytes => decide (bytes ≤ 8589934592) }

/-- The sample environment with every model file unreadable. -/
def unreadableEnv : Env := { sampleEnv with ReadBinaryFromFile := fun _ => none }

/-! ## Lemmas on std::map -/

namespace StdMap

variable {β : Type}

theorem find_isSome_iff (m : StdMap β) (k : String) : (find m k).isSome = true ↔ k ∈ keys m := by
  induction m with
  | nil => simp [find, keys]
  | cons e rest ih =>
    obtain ⟨k', v⟩ := e
    by_cases h : k = k'
    · simp [find, keys, h]
    · have ih' : (find rest k).isSome = true ↔ k ∈ List.map Prod.fst rest := ih
      simp [find, keys, h, ih']

theorem find_eq_none_iff (m : StdMap β) (k : String) : find m k = none ↔ k ∉ keys m := by
  rw [← find_isSome_iff]
  cases find m k <;> simp

theorem find_assign (m : StdMap β) (k : String) (v : β) (k' : String) :
    find (assign m k v) k' = if k' = k then some v else find m k' := by
  induction m with
  | nil => simp [assign, find]
  | cons e rest ih =>
    obtain ⟨k0, v0⟩ := e
    simp only [assign]
    split
    · simp [find]
    · split
      · next h => subst h; by_cases hk : k' = k <;> simp [find, hk]
      · next h =>
        by_cases hk : k' = k
        · subst hk; simp [find, h, ih]
        · by_cases hk0 : k' = k0
          · subst hk0; simp [find, hk]
          · simp [find, hk, hk0, ih]

theorem mem_keys_assign (m : StdMap β) (k : String) (v : β) (k' : String) :
    k' ∈ keys (assign m k v) ↔ k' = k ∨ k' ∈ keys m := by
  rw [← find_isSome_iff, ← find_isSome_iff, find_assign]
  by_cases h : k' = k <;> simp [h]

end StdMap

/-! ## GetDynamicShapeFromOption -/

theorem StdMap.not_mem_keys_of_WF_cons {β : Type} (k : String) (v : β) (rest : StdMap β)
    (h : StdMap.WF ((k, v) :: rest)) : k ∉ StdMap.keys rest := by
  intro hk
  have h1 : ∀ a ∈ StdMap.keys rest, k.data < a.data := by
    simpa [StdMap.WF, StdMap.keys] using (List.pairwise_cons.mp h).1
  have h2 : k < k := String.lt_iff_toList_lt.mpr (h1 k hk)
  exact lt_irrefl _ h2

theorem StdMap.mem_keys_cons {β : Type} (k k0 : String) (v0 : β) (rest : StdMap β) :
    k ∈ StdMap.keys ((k0, v0) :: rest) ↔ k = k0 ∨ k ∈ StdMap.keys rest := by
  simp [StdMap.keys]

theorem StdMap.WF_tail {β : Type} (e : String × β) (rest : StdMap β)
    (h : StdMap.WF (e :: rest)) : StdMap.WF rest :=
  (List.pairwise_cons.mp h).2

theorem GetDynamicShapeFromOption.loop_ok (option : PaddleBackendOption)
    (items : List (String × List Int)) (acc : DynamicShape) (hwf : StdMap.WF items)
    (hsub : ∀ k ∈ StdMap.keys items, k ∈ StdMap.keys option.trt_option.max_shape
      ∧ k ∈ StdMap.keys option.trt_option.opt_shape) :
    ∃ r, GetDynamicShapeFromOption.loop option items acc = .ok r ∧
      (∀ k, r.max_shape.find k = if k ∈ StdMap.keys items
          then option.trt_option.max_shape.find k else acc.max_shape.find k) ∧
      (∀ k, r.min_shape.find k = if k ∈ StdMap.keys items
          then StdMap.find items k else acc.min_shape.find k) ∧
      (∀ k, r.opt_shape.find k = if k ∈ StdMap.keys items
          then option.trt_option.opt_shape.find k else acc.opt_shape.find k) := by
  induction items generalizing acc with
  | nil => exact ⟨acc, rfl, by simp [StdMap.keys], by simp [StdMap.keys], by simp [StdMap.keys]⟩
  | cons item items ih =>
    obtain ⟨k0, v0⟩ := item
    have hk0 := hsub k0 (by simp [StdMap.keys])
    have hnot : k0 ∉ StdMap.keys items := StdMap.not_mem_keys_of_WF_cons k0 v0 items hwf
    obtain ⟨mv, hmv⟩ := Option.isSome_iff_exists.mp ((StdMap.find_isSome_iff _ _).mpr hk0.1)
    obtain ⟨ov, hov⟩ := Option.isSome_iff_exists.mp ((StdMap.find_isSome_iff _ _).mpr hk0.2)
    have hsub' : ∀ k ∈ StdMap.keys items, k ∈ StdMap.keys option.trt_option.max_shape
        ∧ k ∈ StdMap.keys option.trt_option.opt_shape := by
      intro k hk
      exact hsub k (by simp only [StdMap.keys, List.map_cons, List.mem_cons]; exact Or.inr hk)
    obtain ⟨r, hr, hmax, hmin, hopt⟩ := ih
      { max_shape := acc.max_shape.assign k0 mv
        opt_shape := acc.opt_shape.assign k0 ov
        min_shape := acc.min_shape.assign k0 v0
        info := acc.info ++
          [k0 ++ ": the max shape = " ++ print_shape mv
            ++ ", the min shape = " ++ print_shape v0
            ++ ", the opt shape = " ++ print_shape ov] }
      (StdMap.WF_tail _ _ hwf) hsub'
    refine ⟨r, ?_, ?_, ?_, ?_⟩
    · simp only [GetDynamicShapeFromOption.loop, hmv, hov]
      exact hr
    · intro k
      rw [hmax k]; dsimp only
      simp only [StdMap.find_assign, StdMap.mem_keys_cons]
      by_cases hk : k = k0
      · subst hk; simp [hmv, hnot]
      · simp [hk]
    · intro k
      rw [hmin k]; dsimp only
      simp only [StdMap.find_assign, StdMap.mem_keys_cons]
      by_cases hk : k = k0
      · subst hk; simp [StdMap.find, hnot]
      · simp [StdMap.find, hk]
    · intro k
      rw [hopt k]; dsimp only
      simp only [StdMap.find_assign, StdMap.mem_keys_cons]
      by_cases hk : k = k0
      · subst hk; simp [hov, hnot]
      · simp [hk]

theorem GetDynamicShapeFromOption.loop_error (option : PaddleBackendOption)
    (items : List (String × List Int)) (acc : DynamicShape)
    (hmiss : ∃ k ∈ StdMap.keys items, k ∉ StdMap.keys option.trt_option.max_shape
      ∨ k ∉ StdMap.keys option.trt_option.opt_shape) :
    ∃ k ∈ StdMap.keys items,
      (k ∉ StdMap.keys option.trt_option.max_shape ∧
        GetDynamicShapeFromOption.loop option items acc
          = .error (.fdassert ("Cannot find " ++ k ++ " in TrtBackendOption::min_shape.")))
      ∨ (k ∉ StdMap.keys option.trt_option.opt_shape ∧
        GetDynamicShapeFromOption.loop option items acc
          = .error (.fdassert ("Cannot find " ++ k ++ " in TrtBackendOption::opt_shape."))) := by
  induction items generalizing acc with
  | nil =>
    obtain ⟨k, hk, _⟩ := hmiss
    simp [StdMap.keys] at hk
  | cons item items ih =>
    obtain ⟨k0, v0⟩ := item
    cases hmv : option.trt_option.max_shape.find k0 with
    | none =>
      refine ⟨k0, (StdMap.mem_keys_cons _ _ _ _).mpr (Or.inl rfl), Or.inl ⟨?_, ?_⟩⟩
      · exact (StdMap.find_eq_none_iff _ _).mp hmv
      · simp only [GetDynamicShapeFromOption.loop, hmv]
    | some mv =>
      cases hov : option.trt_option.opt_shape.find k0 with
      | none =>
        refine ⟨k0, (StdMap.mem_keys_cons _ _ _ _).mpr (Or.inl rfl), Or.inr ⟨?_, ?_⟩⟩
        · exact (StdMap.find_eq_none_iff _ _).mp hov
        · simp only [GetDynamicShapeFromOption.loop, hmv, hov]
      | some ov =>
        have hin1 : k0 ∈ StdMap.keys option.trt_option.max_shape :=
          (StdMap.find_isSome_iff _ _).mp (by simp [hmv])
        have hin2 : k0 ∈ StdMap.keys option.trt_option.opt_shape :=
          (StdMap.find_isSome_iff _ _).mp (by simp [hov])
        have hmiss' : ∃ k ∈ StdMap.keys items, k ∉ StdMap.keys option.trt_option.max_shape
            ∨ k ∉ StdMap.keys option.trt_option.opt_shape := by
          obtain ⟨k, hk, hko⟩ := hmiss
          rcases (StdMap.mem_keys_cons _ _ _ _).mp hk with h | h
          · subst h
            rcases hko with h' | h'
            · exact absurd hin1 h'
            · exact absurd hin2 h'
          · exact ⟨k, h, hko⟩
        obtain ⟨k, hk, hres⟩ := ih
          { max_shape := acc.max_shape.assign k0 mv
            opt_shape := acc.opt_shape.assign k0 ov
            min_shape := acc.min_shape.assign k0 v0
            info := acc.info ++
              [k0 ++ ": the max shape = " ++ print_shape mv
                ++ ", the min shape = " ++ print_shape v0
                ++ ", the opt shape = " ++ print_shape ov] } hmiss'
        refine ⟨k, (StdMap.mem_keys_cons _ _ _ _).mpr (Or.inr hk), ?_⟩
        simp only [GetDynamicShapeFromOption.loop, hmv, hov]
        exact hres

theorem StdMap.sameKeys_of_find_eq {β γ : Type} (m : StdMap β) (m' : StdMap γ)
    (h : ∀ k, (m.find k).isSome = (m'.find k).isSome) : StdMap.SameKeys m m' := by
  intro k
  rw [← StdMap.find_isSome_iff, ← StdMap.find_isSome_iff, h k]

/-- C4: called with empty output maps, `GetDynamicShapeFromOption` succeeds when
the min, max and opt shape maps of the option have identical key sets, and then
each of the three returned maps has exactly that key set and maps every name to
the shape the corresponding option map gives it; and whenever some key of the
min map is absent from the max map or from the opt map, it ends in a failed
`FDASSERT` whose text names such a key instead of returning. -/
theorem GetDynamicShapeFromOption_spec (option : PaddleBackendOption)
    (hwf : StdMap.WF option.trt_option.min_shape) :
    (StdMap.SameKeys option.trt_option.min_shape option.trt_option.max_shape →
      StdMap.SameKeys option.trt_option.min_shape option.trt_option.opt_shape →
      ∃ r, GetDynamicShapeFromOption option [] [] [] = .ok r ∧
        StdMap.SameKeys r.max_shape option.trt_option.min_shape ∧
        StdMap.SameKeys r.min_shape option.trt_option.min_shape ∧
        StdMap.SameKeys r.opt_shape option.trt_option.min_shape ∧
        (∀ k, r.max_shape.find k = option.trt_option.max_shape.find k) ∧
        (∀ k, r.min_shape.find k = option.trt_option.min_shape.find k) ∧
        (∀ k, r.opt_shape.find k = option.trt_option.opt_shape.find k)) ∧
    (∀ k ∈ StdMap.keys option.trt_option.min_shape,
      (k ∉ StdMap.keys option.trt_option.max_shape ∨ k ∉ StdMap.keys option.trt_option.opt_shape) →
      ∃ k' ∈ StdMap.keys option.trt_option.min_shape,
        (k' ∉ StdMap.keys option.trt_option.max_shape ∧
          GetDynamicShapeFromOption option [] [] []
            = .error (.fdassert ("Cannot find " ++ k' ++ " in TrtBackendOption::min_shape.")))
        ∨ (k' ∉ StdMap.keys option.trt_option.opt_shape ∧
          GetDynamicShapeFromOption option [] [] []
            = .error (.fdassert ("Cannot find " ++ k' ++ " in TrtBackendOption::opt_shape.")))) := by
  constructor
  · intro hmax hopt
    obtain ⟨r, hr, h1, h2, h3⟩ := GetDynamicShapeFromOption.loop_ok option
      option.trt_option.min_shape ⟨[], [], [], []⟩ hwf
      (fun k hk => ⟨(hmax k).mp hk, (hopt k).mp hk⟩)
    have e1 : ∀ k, r.max_shape.find k = option.trt_option.max_shape.find k := by
      intro k
      rw [h1 k]
      by_cases hk : k ∈ StdMap.keys option.trt_option.min_shape
      · simp [hk]
      · have : k ∉ StdMap.keys option.trt_option.max_shape := fun h => hk ((hmax k).mpr h)
        simp [hk, StdMap.find, (StdMap.find_eq_none_iff _ _).mpr this]
    have e2 : ∀ k, r.min_shape.find k = option.trt_option.min_shape.find k := by
      intro k
      rw [h2 k]
      by_cases hk : k ∈ StdMap.keys option.trt_option.min_shape
      · simp [hk]
      · simp [hk, StdMap.find, (StdMap.find_eq_none_iff _ _).mpr hk]
    have e3 : ∀ k, r.opt_shape.find k = option.trt_option.opt_shape.find k := by
      intro k
      rw [h3 k]
      by_cases hk : k ∈ StdMap.keys option.trt_option.min_shape
      · simp [hk]
      · have : k ∉ StdMap.keys option.trt_option.opt_shape := fun h => hk ((hopt k).mpr h)
        simp [hk, StdMap.find, (StdMap.find_eq_none_iff _ _).mpr this]
    refine ⟨r, hr, ?_, ?_, ?_, e1, e2, e3⟩
    · intro k
      exact (StdMap.sameKeys_of_find_eq _ _ (fun k => by rw [e1 k]) k).trans (hmax k).symm
    · exact StdMap.sameKeys_of_find_eq _ _ (fun k => by rw [e2 k])
    · intro k
      exact (StdMap.sameKeys_of_find_eq _ _ (fun k => by rw [e3 k]) k).trans (hopt k).symm
  · intro k hk hmiss
    exact GetDynamicShapeFromOption.loop_error option option.trt_option.min_shape
      ⟨[], [], [], []⟩ ⟨k, hk, hmiss⟩

/-- Witness of C4: complete bounds for `x` and `y`; and `y` without a max bound. -/
theorem GetDynamicShapeFromOption_spec_witness :
    (∃ r, GetDynamicShapeFromOption
        { trt_option := { min_shape := [("x", [1, 3]), ("y", [1])],
                          max_shape := [("x", [4, 3]), ("y", [8])],
                          opt_shape := [("x", [2, 3]), ("y", [4])] } } [] [] [] = .ok r ∧
      r.max_shape.find "y" = some [8] ∧ r.min_shape.find "y" = some [1] ∧
      r.opt_shape.find "y" = some [4]) ∧
    (∃ k' ∈ ["x", "y"],
      GetDynamicShapeFromOption
        { trt_option := { min_shape := [("x", [1, 3]), ("y", [1])],
                          max_shape := [("x", [4, 3])],
                          opt_shape := [("x", [2, 3]), ("y", [4])] } } [] [] []
        = .error (.fdassert ("Cannot find " ++ k' ++ " in TrtBackendOption::min_shape."))
      ∨ GetDynamicShapeFromOption
        { trt_option := { min_shape := [("x", [1, 3]), ("y", [1])],
                          max_shape := [("x", [4, 3])],
                          opt_shape := [("x", [2, 3]), ("y", [4])] } } [] [] []
        = .error (.fdassert ("Cannot find " ++ k' ++ " in TrtBackendOption::opt_shape."))) := by
  constructor
  · obtain ⟨r, hr, -, -, -, h1, h2, h3⟩ := (GetDynamicShapeFromOption_spec
      { trt_option := { min_shape := [("x", [1, 3]), ("y", [1])],
                        max_shape := [("x", [4, 3]), ("y", [8])],
                        opt_shape := [("x", [2, 3]), ("y", [4])] } } (by decide)).1
      (by intro k; simp [StdMap.keys]) (by intro k; simp [StdMap.keys])
    exact ⟨r, hr, by rw [h1]; decide, by rw [h2]; decide, by rw [h3]; decide⟩
  · obtain ⟨k', hk', h⟩ := (GetDynamicShapeFromOption_spec
      { trt_option := { min_shape := [("x", [1, 3]), ("y", [1])],
                        max_shape := [("x", [4, 3])],
                        opt_shape := [("x", [2, 3]), ("y", [4])] } } (by decide)).2
      "y" (by decide) (Or.inl (by decide))
    refine ⟨k', hk', ?_⟩
    rcases h with h | h
    · exact Or.inl h.2
    · exact Or.inr h.2

theorem GetDynamicShapeFromOption.loop_succeeds (option : PaddleBackendOption)
    (items : List (String × List Int)) (acc : DynamicShape)
    (hsub : ∀ k ∈ StdMap.keys items, k ∈ StdMap.keys option.trt_option.max_shape
      ∧ k ∈ StdMap.keys option.trt_option.opt_shape) :
    ∃ r, GetDynamicShapeFromOption.loop option items acc = .ok r ∧
      (∀ k, k ∈ StdMap.keys r.min_shape ↔ k ∈ StdMap.keys items ∨ k ∈ StdMap.keys acc.min_shape) := by
  induction items generalizing acc with
  | nil => exact ⟨acc, rfl, by simp [StdMap.keys]⟩
  | cons item items ih =>
    obtain ⟨k0, v0⟩ := item
    have hk0 := hsub k0 ((StdMap.mem_keys_cons _ _ _ _).mpr (Or.inl rfl))
    obtain ⟨mv, hmv⟩ := Option.isSome_iff_exists.mp ((StdMap.find_isSome_iff _ _).mpr hk0.1)
    obtain ⟨ov, hov⟩ := Option.isSome_iff_exists.mp ((StdMap.find_isSome_iff _ _).mpr hk0.2)
    obtain ⟨r, hr, hkeys⟩ := ih
      { max_shape := acc.max_shape.assign k0 mv
        opt_shape := acc.opt_shape.assign k0 ov
        min_shape := acc.min_shape.assign k0 v0
        info := acc.info ++
          [k0 ++ ": the max shape = " ++ print_shape mv
            ++ ", the min shape = " ++ print_shape v0
            ++ ", the opt shape = " ++ print_shape ov] }
      (fun k hk => hsub k ((StdMap.mem_keys_cons _ _ _ _).mpr (Or.inr hk)))
    refine ⟨r, ?_, ?_⟩
    · simp only [GetDynamicShapeFromOption.loop, hmv, hov]
      exact hr
    · intro k
      rw [hkeys k]; dsimp only
      rw [StdMap.mem_keys_assign, StdMap.mem_keys_cons]
      tauto

theorem GetDynamicShapeFromOption_ok_iff (option : PaddleBackendOption) :
    (∃ r, GetDynamicShapeFromOption option [] [] [] = .ok r) ↔ BoundsComplete option := by
  constructor
  · rintro ⟨r, hr⟩ k hk
    by_contra hmiss
    have hmiss' : k ∉ StdMap.keys option.trt_option.max_shape
        ∨ k ∉ StdMap.keys option.trt_option.opt_shape := by tauto
    obtain ⟨k', -, h | h⟩ := GetDynamicShapeFromOption.loop_error option
      option.trt_option.min_shape ⟨[], [], [], []⟩ ⟨k, hk, hmiss'⟩
    · have := h.2
      simp only [GetDynamicShapeFromOption] at hr
      rw [hr] at this
      cases this
    · have := h.2
      simp only [GetDynamicShapeFromOption] at hr
      rw [hr] at this
      cases this
  · intro h
    obtain ⟨r, hr, -⟩ := GetDynamicShapeFromOption.loop_succeeds option
      option.trt_option.min_shape ⟨[], [], [], []⟩ h
    exact ⟨r, hr⟩

theorem GetDynamicShapeFromOption_min_nonempty (option : PaddleBackendOption) (r : DynamicShape)
    (hr : GetDynamicShapeFromOption option [] [] [] = .ok r) :
    r.min_shape.size > 0 ↔ option.trt_option.min_shape ≠ [] := by
  have hcomplete := (GetDynamicShapeFromOption_ok_iff option).mp ⟨r, hr⟩
  obtain ⟨r', hr', hkeys⟩ := GetDynamicShapeFromOption.loop_succeeds option
    option.trt_option.min_shape ⟨[], [], [], []⟩ hcomplete
  have : r' = r := by
    simp only [GetDynamicShapeFromOption] at hr
    rw [hr] at hr'
    cases hr'; rfl
  subst this
  have hk : ∀ k, k ∈ StdMap.keys r'.min_shape ↔ k ∈ StdMap.keys option.trt_option.min_shape := by
    intro k; rw [hkeys k]; simp [StdMap.keys]
  constructor
  · intro hpos hnil
    cases hmin : r'.min_shape with
    | nil => simp [StdMap.size, hmin] at hpos
    | cons e rest =>
      have := (hk e.1).mp (by simp [StdMap.keys, hmin])
      simp [hnil, StdMap.keys] at this
  · intro hne
    cases hmin : option.trt_option.min_shape with
    | nil => exact absurd hmin hne
    | cons e rest =>
      have := (hk e.1).mpr (by simp [StdMap.keys, hmin])
      cases hr2 : r'.min_shape with
      | nil => simp [hr2, StdMap.keys] at this
      | cons e' rest' => simp [StdMap.size]

/-! ## BuildOption -/

theorem SetTRTDynamicShapeToConfig_ok_iff (self : PaddleBackend) (option : PaddleBackendOption) :
    (∃ res, SetTRTDynamicShapeToConfig self option = .ok res) ↔ BoundsComplete option := by
  rw [← GetDynamicShapeFromOption_ok_iff]
  unfold SetTRTDynamicShapeToConfig
  cases GetDynamicShapeFromOption option [] [] [] <;> simp

theorem BuildOption.common_threads (self : PaddleBackend) (option : PaddleBackendOption) :
    (BuildOption.common self option).1.config_.cpu_math_library_num_threads
      = if option.cpu_thread_num ≤ 0 then 8 else option.cpu_thread_num := by
  unfold BuildOption.common
  by_cases h : option.cpu_thread_num ≤ 0 <;> simp [h, Config.SetCpuMathLibraryNumThreads]

theorem BuildOption.device_ok_iff (trt : Bool) (self : PaddleBackend)
    (option : PaddleBackendOption) :
    (∃ res, BuildOption.device trt self option = .ok res) ↔
      (trt = false ∨ option.use_gpu = false ∨ option.enable_trt = false ∨ BoundsComplete option) := by
  unfold BuildOption.device
  by_cases hg : option.use_gpu = true
  · by_cases ht : option.enable_trt = true
    · cases trt
      · simp [hg, ht]
      · simp only [hg, ht, if_true]
        split
        · next e he =>
          have hb : ¬ BoundsComplete option := fun hb => by
            obtain ⟨res, hres⟩ := (SetTRTDynamicShapeToConfig_ok_iff _ option).mpr hb
            rw [hres] at he; cases he
          simp [hb]
        · next self' fx he =>
          have hb : BoundsComplete option :=
            (SetTRTDynamicShapeToConfig_ok_iff _ option).mp ⟨_, he⟩
          simp [hb]
    · simp [hg, ht]
  · have hg' : option.use_gpu = false := by simpa using hg
    rw [if_neg hg]
    split <;> simp [hg']

theorem BuildOption_ok_iff (trt : Bool) (self : PaddleBackend) (option : PaddleBackendOption) :
    (∃ res, BuildOption trt self option = .ok res) ↔
      (trt = false ∨ option.use_gpu = false ∨ option.enable_trt = false ∨ BoundsComplete option) := by
  rw [← BuildOption.device_ok_iff trt { self with option_ := option } option]
  simp only [BuildOption]
  cases hd : BuildOption.device trt { self with option_ := option } option <;> simp

theorem BuildOption_inv (trt : Bool) (self self' : PaddleBackend) (option : PaddleBackendOption)
    (fx : List Effect) (h : BuildOption trt self option = .ok (self', fx)) :
    ∃ self1 fx1, BuildOption.device trt { self with option_ := option } option = .ok (self1, fx1) ∧
      self' = (BuildOption.common self1 option).1 ∧
      fx = fx1 ++ (BuildOption.common self1 option).2 := by
  simp only [BuildOption] at h
  cases hd : BuildOption.device trt { self with option_ := option } option with
  | error a => rw [hd] at h; cases h
  | ok res =>
    obtain ⟨self1, fx1⟩ := res
    rw [hd] at h
    simp only [Except.ok.injEq, Prod.mk.injEq] at h
    exact ⟨self1, fx1, rfl, h.1.symm, h.2.symm⟩

/-- C9: whatever the device and the fusion flag, the CPU math-library thread
count that `BuildOption` sets on the engine configuration is
`option.cpu_thread_num` when that is positive and 8 otherwise, hence always
positive; and `BuildOption` does return unless the accelerator is compiled in,
requested on GPU, and given incomplete shape bounds. -/
theorem BuildOption_cpu_math_library_num_threads (ENABLE_TRT_BACKEND : Bool)
    (self : PaddleBackend) (option : PaddleBackendOption) :
    (∀ self' fx, BuildOption ENABLE_TRT_BACKEND self option = .ok (self', fx) →
      self'.config_.cpu_math_library_num_threads
        = (if option.cpu_thread_num ≤ 0 then 8 else option.cpu_thread_num) ∧
      0 < self'.config_.cpu_math_library_num_threads) ∧
    ((ENABLE_TRT_BACKEND = false ∨ option.use_gpu = false ∨ option.enable_trt = false
        ∨ BoundsComplete option) →
      ∃ self' fx, BuildOption ENABLE_TRT_BACKEND self option = .ok (self', fx)) := by
  constructor
  · intro self' fx h
    obtain ⟨self1, fx1, -, hself, -⟩ := BuildOption_inv _ _ _ _ _ h
    have hthreads := BuildOption.common_threads self1 option
    rw [← hself] at hthreads
    refine ⟨hthreads, ?_⟩
    rw [hthreads]
    split <;> omega
  · intro h
    obtain ⟨⟨self', fx⟩, hres⟩ := (BuildOption_ok_iff ENABLE_TRT_BACKEND self option).mpr h
    exact ⟨self', fx, hres⟩

/-- Witness of C9: a CPU option with thread count 0 resolves to 8 threads, a GPU
option with thread count 4 to 4 threads. -/
theorem BuildOption_cpu_math_library_num_threads_witness :
    (∃ self' fx, BuildOption true {} { cpu_thread_num := 0 } = .ok (self', fx) ∧
      self'.config_.cpu_math_library_num_threads = 8) ∧
    (∃ self' fx, BuildOption true {} { use_gpu := true, cpu_thread_num := 4 } = .ok (self', fx) ∧
      self'.config_.cpu_math_library_num_threads = 4) := by
  constructor
  · obtain ⟨self', fx, h⟩ := (BuildOption_cpu_math_library_num_threads true {}
      { cpu_thread_num := 0 }).2 (Or.inr (Or.inl rfl))
    exact ⟨self', fx, h, ((BuildOption_cpu_math_library_num_threads true {}
      { cpu_thread_num := 0 }).1 self' fx h).1⟩
  · obtain ⟨self', fx, h⟩ := (BuildOption_cpu_math_library_num_threads true {}
      { use_gpu := true, cpu_thread_num := 4 }).2 (Or.inr (Or.inr (Or.inl rfl)))
    exact ⟨self', fx, h, ((BuildOption_cpu_math_library_num_threads true {}
      { use_gpu := true, cpu_thread_num := 4 }).1 self' fx h).1⟩


/-! ## Infer -/

theorem Infer.shareInputs_eq (inputs : List FDTensor) (p : Predictor) :
    Infer.shareInputs inputs p
      = { p with events := p.events ++ inputs.map (fun t => EngineEvent.Share t.name t) } := by
  induction inputs generalizing p with
  | nil => simp [Infer.shareInputs]
  | cons t ts ih =>
    simp [Infer.shareInputs, ih, ShareTensorFromFDTensor, Predictor.record]

theorem Infer.copyOutputs_length (p : Predictor) (o : PaddleBackendOption)
    (descs : List TensorInfo) (i : Nat) (outputs : List FDTensor) :
    (Infer.copyOutputs p o descs i outputs).length = outputs.length := by
  induction descs generalizing i outputs with
  | nil => rfl
  | cons d ds ih => simp [Infer.copyOutputs, ih]

theorem Infer.copyOutputs_getElem? (p : Predictor) (o : PaddleBackendOption)
    (descs : List TensorInfo) (i : Nat) (outputs : List FDTensor) (j : Nat) :
    (Infer.copyOutputs p o descs i outputs)[j]? =
      if i ≤ j then
        match descs[j - i]? with
        | some d => outputs[j]?.map (fun t => CopyTensorToCpu (p.GetOutputHandle d.name)
            { t with is_pinned_memory := o.enable_pinned_memory })
        | none => outputs[j]?
      else outputs[j]? := by
  induction descs generalizing i outputs with
  | nil => simp [Infer.copyOutputs]
  | cons d ds ih =>
    simp only [Infer.copyOutputs]
    rw [ih, List.getElem?_modify]
    by_cases h1 : i + 1 ≤ j
    · have h2 : i ≤ j := by omega
      have h3 : j - i = (j - (i + 1)) + 1 := by omega
      have h4 : i ≠ j := by omega
      simp only [h1, h2, if_true]
      rw [h3, List.getElem?_cons_succ]
      cases ds[j - (i + 1)]? <;> cases outputs[j]? <;> simp [h4]
    · by_cases h2 : i = j
      · subst h2
        simp
      · have h3 : ¬ i ≤ j := by omega
        simp [h1, h2, h3]

theorem resize_length (outputs : List FDTensor) (n : Nat) : (resize outputs n).length = n := by
  simp [resize]; omega

/-- C1: when the number of supplied inputs differs from the number of declared
input descriptors, `Infer` returns false, leaves the instance (its engine and
the calls recorded on it included) as it was, leaves the output container as it
was, and only logs the error. -/
theorem Infer_input_count_mismatch (self : PaddleBackend) (inputs outputs : List FDTensor)
    (h : inputs.length ≠ self.inputs_desc_.length) :
    ∃ r, Infer self inputs outputs = .ok r ∧ r.ret = false ∧ r.self = self ∧
      r.self.predictor_ = self.predictor_ ∧ r.outputs = outputs ∧
      r.effects = [FDERROR ("[PaddleBackend] Size of inputs(" ++ toString inputs.length
        ++ ") should keep same with the inputs of this model("
        ++ toString self.inputs_desc_.length ++ ").")] := by
  refine ⟨_, by simp only [Infer, h, ne_eq, not_false_eq_true, if_true]; rfl, rfl, rfl, rfl, rfl, rfl⟩

/-- C3: `InitFromPaddle` on an instance that is already initialized returns
false for every model path, params path and option and leaves the instance as it
was; it only logs the error. -/
theorem InitFromPaddle_already_initialized (e : Env) (self : PaddleBackend)
    (model_file params_file : String) (option : PaddleBackendOption)
    (h : self.initialized_ = true) :
    InitFromPaddle e self model_file params_file option
      = .ok (false, self,
          [FDERROR "PaddleBackend is already initlized, cannot initialize again."]) := by
  simp [InitFromPaddle, h]

/-- Witness of C1: two inputs declared, one and three supplied. -/
theorem Infer_input_count_mismatch_witness :
    (∃ r, Infer sampleBackend [{ name := "a" }] [{ name := "kept" }] = .ok r ∧ r.ret = false
      ∧ r.self = sampleBackend ∧ r.self.predictor_ = sampleBackend.predictor_
      ∧ r.outputs = [{ name := "kept" }]
      ∧ r.effects = [FDERROR ("[PaddleBackend] Size of inputs(" ++ toString 1
        ++ ") should keep same with the inputs of this model(" ++ toString 2 ++ ").")]) ∧
    (∃ r, Infer sampleBackend [{ name := "a" }, { name := "b" }, { name := "c" }] [] = .ok r
      ∧ r.ret = false ∧ r.self = sampleBackend ∧ r.self.predictor_ = sampleBackend.predictor_
      ∧ r.outputs = []
      ∧ r.effects = [FDERROR ("[PaddleBackend] Size of inputs(" ++ toString 3
        ++ ") should keep same with the inputs of this model(" ++ toString 2 ++ ").")]) :=
  ⟨Infer_input_count_mismatch sampleBackend [{ name := "a" }] [{ name := "kept" }] (by decide),
   Infer_input_count_mismatch sampleBackend [{ name := "a" }, { name := "b" }, { name := "c" }] []
     (by decide)⟩

/-- C2: on an initialized instance (flag set, engine present) and with as many
inputs as declared, `Infer` returns true; the engine has then received one
binding per input, in order, followed by exactly one `Run`; the output container
has exactly as many entries as there are output descriptors, and entry `i` holds
the contents of the engine's output slot named by the `i`-th descriptor, tagged
with `option_.enable_pinned_memory`. -/
theorem Infer_success (self : PaddleBackend) (inputs outputs : List FDTensor)
    (hinv : self.Inv) (hinit : self.initialized_ = true)
    (hlen : inputs.length = self.inputs_desc_.length) :
    ∃ r predictor engine, Infer self inputs outputs = .ok r ∧ r.ret = true ∧
      self.predictor_ = some predictor ∧ r.self.predictor_ = some engine ∧
      engine = { predictor with
        events := predictor.events ++ inputs.map (fun t => EngineEvent.Share t.name t) ++ [.Run] } ∧
      r.outputs.length = self.outputs_desc_.length ∧
      ∀ (i : Nat) (desc : TensorInfo), self.outputs_desc_[i]? = some desc →
        ∃ t : FDTensor, r.outputs[i]? = some t ∧
          t.is_pinned_memory = self.option_.enable_pinned_memory ∧
          t.shape = (engine.GetOutputHandle desc.name).shape ∧
          t.dtype = PaddleDataTypeToFD (engine.GetOutputHandle desc.name).dtype ∧
          t.data = (engine.GetOutputHandle desc.name).data := by
  obtain ⟨predictor, hp⟩ := Option.isSome_iff_exists.mp (hinv.mp hinit)
  refine ⟨_, predictor, _, by simp only [Infer, hlen, ne_eq, not_true_eq_false, if_false, hp]; rfl,
    rfl, hp, rfl, ?_, ?_, ?_⟩
  · simp [Infer.shareInputs_eq, Predictor.Run, Predictor.record]
  · simp [Infer.copyOutputs_length, resize_length]
  · intro i desc hdesc
    have hi : i < self.outputs_desc_.length := by
      rcases Nat.lt_or_ge i self.outputs_desc_.length with h | h
      · exact h
      · rw [List.getElem?_eq_none h] at hdesc; cases hdesc
    have hres : i < (resize outputs self.outputs_desc_.length).length := by
      rw [resize_length]; exact hi
    simp only [Infer.copyOutputs_getElem?, Nat.zero_le, if_true, Nat.sub_zero, hdesc,
      List.getElem?_eq_getElem hres, Option.map_some']
    exact ⟨_, rfl, rfl, rfl, rfl, rfl⟩

/-- Witness of C2: the sample instance with its two declared inputs supplied. -/
theorem Infer_success_witness :
    ∃ r predictor engine, Infer sampleBackend [{ name := "a" }, { name := "b" }] [] = .ok r
      ∧ r.ret = true ∧
      sampleBackend.predictor_ = some predictor ∧ r.self.predictor_ = some engine ∧
      engine = { predictor with
        events := predictor.events
          ++ [({ name := "a" }:FDTensor), { name := "b" }].map (fun t => EngineEvent.Share t.name t)
          ++ [.Run] } ∧
      r.outputs.length = sampleBackend.outputs_desc_.length ∧
      ∀ (i : Nat) (desc : TensorInfo), sampleBackend.outputs_desc_[i]? = some desc →
        ∃ t : FDTensor, r.outputs[i]? = some t ∧
          t.is_pinned_memory = sampleBackend.option_.enable_pinned_memory ∧
          t.shape = (engine.GetOutputHandle desc.name).shape ∧
          t.dtype = PaddleDataTypeToFD (engine.GetOutputHandle desc.name).dtype ∧
          t.data = (engine.GetOutputHandle desc.name).data :=
  Infer_success sampleBackend [{ name := "a" }, { name := "b" }] []
    (by simp [PaddleBackend.Inv, sampleBackend]) (by rfl) (by decide)

/-- Witness of C3: a second initialization of the sample instance. -/
theorem InitFromPaddle_already_initialized_witness :
    sampleBackend.initialized_ = true ∧
    InitFromPaddle sampleEnv sampleBackend "model.pdmodel" "model.pdiparams" {}
      = .ok (false, sampleBackend,
          [FDERROR "PaddleBackend is already initlized, cannot initialize again."]) :=
  ⟨rfl, InitFromPaddle_already_initialized sampleEnv sampleBackend "model.pdmodel"
    "model.pdiparams" {} rfl⟩

/-! ## CollectShapeRun -/

theorem wrapInt32_eq_self (x : Int) (h1 : -2147483648 ≤ x) (h2 : x < 2147483648) :
    wrapInt32 x = x := by
  unfold wrapInt32; omega

theorem wrapInt32_wrapInt32_mul (a b : Int) : wrapInt32 (wrapInt32 a * b) = wrapInt32 (a * b) := by
  have h : wrapInt32 a = a - 4294967296 * ((a + 2147483648) / 4294967296) := by
    unfold wrapInt32; omega
  rw [h]
  unfold wrapInt32
  have e : (a - 4294967296 * ((a + 2147483648) / 4294967296)) * b + 2147483648
      = (a * b + 2147483648) + 4294967296 * (-(((a + 2147483648) / 4294967296) * b)) := by ring
  rw [e, Int.add_mul_emod_self_left]

theorem wrapInt32_idem (x : Int) : wrapInt32 (wrapInt32 x) = wrapInt32 x := by
  unfold wrapInt32; omega

theorem accumulate_multiplies_wrap (shape_value : List Int) (init : Int) :
    wrapInt32 (accumulate_multiplies shape_value init) = wrapInt32 (init * shape_value.prod) := by
  induction shape_value generalizing init with
  | nil => simp [accumulate_multiplies]
  | cons d ds ih =>
    have := ih (wrapInt32 (init * d))
    simp only [accumulate_multiplies, List.foldl_cons, List.prod_cons] at this ⊢
    rw [this, wrapInt32_wrapInt32_mul, mul_assoc]

theorem accumulate_multiplies_in_range (shape_value : List Int) (init : Int)
    (h : wrapInt32 init = init) :
    wrapInt32 (accumulate_multiplies shape_value init) = accumulate_multiplies shape_value init := by
  induction shape_value generalizing init with
  | nil => simpa [accumulate_multiplies] using h
  | cons d ds ih =>
    have := ih (wrapInt32 (init * d)) (wrapInt32_idem _)
    simpa only [accumulate_multiplies, List.foldl_cons] using this

theorem accumulate_multiplies_eq_prod (shape_value : List Int)
    (hpos : ∀ d ∈ shape_value, 0 < d) (hlt : shape_value.prod < 2147483648) :
    accumulate_multiplies shape_value 1 = shape_value.prod := by
  have h0 : 0 < shape_value.prod := List.prod_pos hpos
  rw [← accumulate_multiplies_in_range shape_value 1 (by decide), accumulate_multiplies_wrap,
    one_mul]
  exact wrapInt32_eq_self _ (by omega) hlt

theorem specCalibrationEvents_no_run (input_names : List String) (input_types : StdMap DataType)
    (shape : StdMap (List Int)) :
    EngineEvent.Run ∉ specCalibrationEvents input_names input_types shape := by
  unfold specCalibrationEvents
  rw [List.mem_flatMap]
  rintro ⟨name, -, h⟩
  split at h
  · split at h <;> simp at h
  · simp at h

theorem CollectShapeRun.body_in_range (allocate : Nat → Bool) (p : Predictor)
    (shape : StdMap (List Int)) (name : String) (sh : List Int) (ty : DataType)
    (hs : shape.find name = some sh) (ht : p.input_types.find name = some ty)
    (hsup : ty.supported = true) (hpos : ∀ d ∈ sh, 0 < d) (hlt : sh.prod < 2147483648)
    (halloc : allocate (sh.prod.toNat * ty.size) = true) :
    ∃ input_data, specFiller ty sh.prod.toNat = some input_data ∧
      CollectShapeRun.body allocate p shape name
        = .ok { p with events := p.events ++ [.Reshape name sh, .CopyFromCpu name input_data] } := by
  have hacc := accumulate_multiplies_eq_prod sh hpos hlt
  have h0 : ¬ sh.prod < 0 := not_lt.mpr (le_of_lt (List.prod_pos hpos))
  unfold CollectShapeRun.body
  rw [hs, ht]
  cases ty <;> simp [DataType.supported] at hsup <;>
    simp only [DataType.size] at halloc <;>
    exact ⟨_, rfl, by simp [vector_fill, hacc, h0, halloc, Predictor.record]⟩

theorem CollectShapeRun.loop_in_range (allocate : Nat → Bool) (shape : StdMap (List Int))
    (names : List String) (p : Predictor)
    (h : ∀ name ∈ names, ∃ sh ty, shape.find name = some sh ∧
      p.input_types.find name = some ty ∧ ty.supported = true ∧
      (∀ d ∈ sh, 0 < d) ∧ sh.prod < 2147483648 ∧
      allocate (sh.prod.toNat * ty.size) = true) :
    CollectShapeRun.loop allocate shape names p
      = .ok { p with events := p.events ++ specCalibrationEvents names p.input_types shape } := by
  induction names generalizing p with
  | nil => simp [CollectShapeRun.loop, specCalibrationEvents]
  | cons name names ih =>
    obtain ⟨sh, ty, hs, ht, hsup, hpos, hlt, halloc⟩ := h name (by simp)
    obtain ⟨buf, hbuf, hbody⟩ := CollectShapeRun.body_in_range allocate p shape name sh ty hs ht
      hsup hpos hlt halloc
    simp only [CollectShapeRun.loop, hbody]
    have hrest := ih
      { p with events := p.events ++ [.Reshape name sh, .CopyFromCpu name buf] }
      (fun n hn => h n (by simp [hn]))
    rw [hrest]
    simp [specCalibrationEvents, hs, ht, hbuf]

/-- Within the range of `int` the calibration run does what the spec words:
when every input the engine reports has, in the shape map, a shape of positive
dimensions whose product is below 2^31, and a supported element type, and the
allocator serves each filler, `CollectShapeRun` returns, having reshaped each
input to its shape from the map and bound to it a filler of as many elements as
the product of the dimensions, each equal to 1, and then executed the engine
exactly once. -/
theorem CollectShapeRun_in_range (allocate : Nat → Bool) (predictor : Predictor)
    (shape : StdMap (List Int))
    (h : ∀ name ∈ predictor.input_names, ∃ sh ty, shape.find name = some sh ∧
      predictor.input_types.find name = some ty ∧ ty.supported = true ∧
      (∀ d ∈ sh, 0 < d) ∧ sh.prod < 2147483648 ∧
      allocate (sh.prod.toNat * ty.size) = true) :
    CollectShapeRun allocate predictor shape
      = .ok { predictor with
          events := predictor.events
            ++ specCalibrationEvents predictor.input_names predictor.input_types shape
            ++ [.Run] } ∧
    EngineEvent.Run ∉ specCalibrationEvents predictor.input_names predictor.input_types shape := by
  refine ⟨?_, specCalibrationEvents_no_run _ _ _⟩
  simp only [CollectShapeRun, CollectShapeRun.loop_in_range allocate shape _ predictor h]
  simp [Predictor.Run, Predictor.record]

/-- The float input `x` with shape [1, 3, 224, 224] receives a filler of 150528
ones and the engine runs once. -/
theorem CollectShapeRun_in_range_example :
    CollectShapeRun sampleEnv.allocate (sampleEngine {}) [("x", [1, 3, 224, 224])]
      = .ok { sampleEngine {} with
          events := [.Reshape "x" [1, 3, 224, 224],
                     .CopyFromCpu "x" (.f32 (List.replicate 150528 1)),
                     .Run] } := by
  have h := (CollectShapeRun_in_range sampleEnv.allocate (sampleEngine {})
    [("x", [1, 3, 224, 224])]
    (by
      intro name hname
      simp only [sampleEngine, List.mem_singleton] at hname
      subst hname
      exact ⟨[1, 3, 224, 224], .FLOAT32, by decide, by decide, by decide, by decide, by decide,
        by decide⟩)).1
  have hcount : (([1, 3, 224, 224] : List Int).prod).toNat = 150528 := by decide
  have hev : specCalibrationEvents (sampleEngine {}).input_names (sampleEngine {}).input_types
      [("x", [1, 3, 224, 224])]
      = [.Reshape "x" [1, 3, 224, 224], .CopyFromCpu "x" (.f32 (List.replicate 150528 1))] := by
    rw [← hcount]
    rfl
  rw [h, hev]
  rfl

/-- C5 at the failing input: the engine reports the one input `x`, which is in
the shape map with shape [46341, 46341] and in the element-type map with
float32; the product of the dimensions, 2147488281, leaves the range of `int`,
the element count computed on line 252 is -2147479015, and `CollectShapeRun`
fails with `std::length_error` after the reshape, without executing the
engine. -/
theorem CollectShapeRun_int_overflow_fails :
    (sampleEngine {}).input_names = ["x"] ∧
    StdMap.find [("x", [46341, 46341])] "x" = some [46341, 46341] ∧
    (sampleEngine {}).input_types.find "x" = some DataType.FLOAT32 ∧
    DataType.FLOAT32.supported = true ∧
    ([46341, 46341] : List Int).prod = 2147488281 ∧
    accumulate_multiplies [46341, 46341] 1 = -2147479015 ∧
    ∃ a, CollectShapeRun sampleEnv.allocate (sampleEngine {}) [("x", [46341, 46341])] = .error a ∧
      a.cause = .lengthError ∧ a.engine.events = [.Reshape "x" [46341, 46341]] := by
  refine ⟨rfl, by decide, by decide, rfl, by decide, by decide, _, rfl, rfl, rfl⟩

/-- C6 at the failing inputs: input `x` is in the shape map with the supported
element type float32. With shape [65536, 32768] (product 2^31) the element count
computed on line 252 is negative, no filler is built and the engine is not
executed. With shape [65536, 65537] (product 4295032832) the element count
computed is 65536: the input is reshaped to [65536, 65537] but the filler bound
to it has only 65536 elements, and the engine is executed. -/
theorem CollectShapeRun_int_overflow_filler :
    (sampleEngine {}).input_names = ["x"] ∧
    (sampleEngine {}).input_types.find "x" = some DataType.FLOAT32 ∧
    DataType.FLOAT32.supported = true ∧
    (([65536, 32768] : List Int).prod = 2147483648 ∧
      accumulate_multiplies [65536, 32768] 1 = -2147483648 ∧
      ∃ a, CollectShapeRun sampleEnv.allocate (sampleEngine {}) [("x", [65536, 32768])]
          = .error a ∧
        a.cause = .lengthError ∧ a.engine.events = [.Reshape "x" [65536, 32768]]) ∧
    (([65536, 65537] : List Int).prod = 4295032832 ∧
      accumulate_multiplies [65536, 65537] 1 = 65536 ∧
      ∃ p input_data,
        CollectShapeRun sampleEnv.allocate (sampleEngine {}) [("x", [65536, 65537])] = .ok p ∧
        p.events = [.Reshape "x" [65536, 65537], .CopyFromCpu "x" (.f32 input_data), .Run] ∧
        input_data.length = 65536) := by
  refine ⟨rfl, by decide, rfl, ⟨by decide, by decide, _, rfl, rfl, rfl⟩,
    by decide, by decide, _, List.replicate (accumulate_multiplies [65536, 65537] 1).toNat 1,
    rfl, rfl, ?_⟩
  rw [List.length_replicate]
  decide

/-! ## InitFromPaddle -/

theorem SetTRTDynamicShapeToConfig_inv (self self' : PaddleBackend) (option : PaddleBackendOption)
    (fx : List Effect) (h : SetTRTDynamicShapeToConfig self option = .ok (self', fx)) :
    ∃ r, GetDynamicShapeFromOption option [] [] [] = .ok r ∧
      self' = { self with config_ :=
        if r.min_shape.size > 0 then
          self.config_.SetTRTDynamicShapeInfo r.min_shape r.max_shape r.opt_shape
        else self.config_ } ∧
      fx = r.info.map FDINFO ++
        [FDINFO "Start setting trt dynamic shape.", FDINFO "Finish setting trt dynamic shape."] := by
  unfold SetTRTDynamicShapeToConfig at h
  cases hr : GetDynamicShapeFromOption option [] [] [] with
  | error a => rw [hr] at h; cases h
  | ok r =>
    rw [hr] at h
    simp only [Except.ok.injEq, Prod.mk.injEq] at h
    exact ⟨r, rfl, h.1.symm, h.2.symm⟩

@[simp] theorem Quiet_nil : Quiet [] := by simp [Quiet]

@[simp] theorem Quiet_cons (ev : Effect) (fx : List Effect) :
    Quiet (ev :: fx) ↔ Effect.isCreatePredictor ev = false ∧ Quiet fx := by
  simp [Quiet]

@[simp] theorem Quiet_append (fx fx' : List Effect) :
    Quiet (fx ++ fx') ↔ Quiet fx ∧ Quiet fx' := by
  simp only [Quiet, List.mem_append]
  constructor
  · intro h; exact ⟨fun ev hev => h ev (Or.inl hev), fun ev hev => h ev (Or.inr hev)⟩
  · rintro ⟨h1, h2⟩ ev (hev | hev)
    · exact h1 ev hev
    · exact h2 ev hev

@[simp] theorem Quiet_map_FDINFO (lines : List String) : Quiet (lines.map FDINFO) := by
  intro ev hev
  obtain ⟨l, -, rfl⟩ := List.mem_map.mp hev
  rfl

@[simp] theorem Quiet_ite (c : Prop) [Decidable c] (fx fx' : List Effect) :
    Quiet (if c then fx else fx') ↔ (if c then Quiet fx else Quiet fx') := by
  split <;> rfl

@[simp] theorem isCreatePredictor_FDINFO (m : String) :
    Effect.isCreatePredictor (FDINFO m) = false := rfl

@[simp] theorem isCreatePredictor_FDWARNING (m : String) :
    Effect.isCreatePredictor (FDWARNING m) = false := rfl

@[simp] theorem isCreatePredictor_FDERROR (m : String) :
    Effect.isCreatePredictor (FDERROR m) = false := rfl

@[simp] theorem isCreatePredictor_trtCacheWarning (m : String) :
    Effect.isCreatePredictor (trtCacheWarning m) = false := rfl

@[simp] theorem isCreatePredictor_CreatePredictorTmp (c : Config) :
    Effect.isCreatePredictor (Effect.CreatePredictorTmp c) = false := rfl

theorem SetTRTDynamicShapeToConfig_quiet (self self' : PaddleBackend)
    (option : PaddleBackendOption) (fx : List Effect)
    (h : SetTRTDynamicShapeToConfig self option = .ok (self', fx)) :
    self'.predictor_ = self.predictor_ ∧ self'.initialized_ = self.initialized_ ∧ Quiet fx := by
  obtain ⟨r, -, hself, hfx⟩ := SetTRTDynamicShapeToConfig_inv _ _ _ _ h
  subst hself hfx
  exact ⟨rfl, rfl, by simp⟩

theorem BuildOption.device_quiet (trt : Bool) (self self' : PaddleBackend)
    (option : PaddleBackendOption) (fx : List Effect)
    (h : BuildOption.device trt self option = .ok (self', fx)) :
    self'.predictor_ = self.predictor_ ∧ self'.initialized_ = self.initialized_ ∧ Quiet fx := by
  unfold BuildOption.device at h
  by_cases hg : option.use_gpu = true
  · by_cases ht : option.enable_trt = true
    · cases trt
      · simp only [hg, ht, if_true, Bool.false_eq_true, if_false, Except.ok.injEq,
          Prod.mk.injEq] at h
        obtain ⟨rfl, rfl⟩ := h
        exact ⟨rfl, rfl, by simp⟩
      · simp only [hg, ht, if_true] at h
        generalize hs : SetTRTDynamicShapeToConfig _ option = x at h
        cases x with
        | error a => cases h
        | ok res =>
          obtain ⟨self1, fx1⟩ := res
          simp only [Except.ok.injEq, Prod.mk.injEq] at h
          obtain ⟨rfl, rfl⟩ := h
          obtain ⟨h1, h2, h3⟩ := SetTRTDynamicShapeToConfig_quiet _ _ _ _ hs
          refine ⟨h1, h2, ?_⟩
          simp only [Quiet_append, Quiet_ite, h3, and_true]
          split <;> simp
    · simp only [hg, ht, if_true, Bool.false_eq_true, if_false, Except.ok.injEq,
        Prod.mk.injEq] at h
      obtain ⟨rfl, rfl⟩ := h
      exact ⟨rfl, rfl, by simp⟩
  · by_cases hm : option.enable_mkldnn = true
    · simp only [hg, hm, if_true, if_false, Except.ok.injEq, Prod.mk.injEq] at h
      obtain ⟨rfl, rfl⟩ := h
      exact ⟨rfl, rfl, by simp⟩
    · simp only [hg, hm, if_false, Except.ok.injEq, Prod.mk.injEq] at h
      obtain ⟨rfl, rfl⟩ := h
      exact ⟨rfl, rfl, by simp⟩

theorem BuildOption_quiet (trt : Bool) (self self' : PaddleBackend)
    (option : PaddleBackendOption) (fx : List Effect)
    (h : BuildOption trt self option = .ok (self', fx)) :
    self'.predictor_ = self.predictor_ ∧ self'.initialized_ = self.initialized_ ∧ Quiet fx := by
  obtain ⟨self1, fx1, hd, hself, hfx⟩ := BuildOption_inv _ _ _ _ _ h
  obtain ⟨h1, h2, h3⟩ := BuildOption.device_quiet _ _ _ _ _ hd
  subst hself hfx
  refine ⟨h1, h2, ?_⟩
  simp only [Quiet_append, h3, true_and, BuildOption.common]
  intro ev hev
  obtain ⟨l, -, rfl⟩ := List.mem_map.mp hev
  rfl

theorem InitFromPaddle.quantize_quiet (trt : Bool) (self self' : PaddleBackend)
    (option : PaddleBackendOption) (q : Bool) (fx : List Effect)
    (h : InitFromPaddle.quantize trt self option q = .ok (self', fx)) :
    self'.predictor_ = self.predictor_ ∧ self'.initialized_ = self.initialized_ ∧ Quiet fx := by
  unfold InitFromPaddle.quantize at h
  cases q
  · simp only [Bool.false_eq_true, if_false, Except.ok.injEq, Prod.mk.injEq] at h
    obtain ⟨rfl, rfl⟩ := h
    exact ⟨rfl, rfl, by simp⟩
  · simp only [if_true] at h
    generalize hgpu : (if option.use_gpu = true then _ else _ :
      Except Abort (PaddleBackend × List Effect)) = gpu at h
    have hq : ∀ self1 fx1, gpu = .ok (self1, fx1) →
        self1.predictor_ = self.predictor_ ∧ self1.initialized_ = self.initialized_ ∧
          Quiet fx1 := by
      intro self1 fx1 hok
      rw [hok] at hgpu
      by_cases hg : option.use_gpu = true
      · by_cases ht : option.enable_trt = true
        · cases trt
          · simp only [hg, ht, if_true, Bool.false_eq_true, if_false, Except.ok.injEq,
              Prod.mk.injEq] at hgpu
            obtain ⟨rfl, rfl⟩ := hgpu
            exact ⟨rfl, rfl, by simp⟩
          · simp only [hg, ht, if_true] at hgpu
            generalize hs : SetTRTDynamicShapeToConfig _ option = x at hgpu
            cases x with
            | error a => cases hgpu
            | ok res =>
              obtain ⟨self2, fx2⟩ := res
              simp only [Except.ok.injEq, Prod.mk.injEq] at hgpu
              obtain ⟨rfl, rfl⟩ := hgpu
              obtain ⟨h1, h2, h3⟩ := SetTRTDynamicShapeToConfig_quiet _ _ _ _ hs
              refine ⟨h1, h2, ?_⟩
              simp only [Quiet_append, Quiet_ite, h3, and_true]
              refine ⟨by simp, ?_⟩
              split <;> simp
        · simp only [hg, ht, if_true, Bool.false_eq_true, if_false, Except.ok.injEq,
            Prod.mk.injEq] at hgpu
          obtain ⟨rfl, rfl⟩ := hgpu
          exact ⟨rfl, rfl, by simp⟩
      · simp only [hg, if_false, Except.ok.injEq, Prod.mk.injEq] at hgpu
        obtain ⟨rfl, rfl⟩ := hgpu
        exact ⟨rfl, rfl, by simp⟩
    cases gpu with
    | error a => cases h
    | ok res =>
      obtain ⟨self1, fx1⟩ := res
      obtain ⟨h1, h2, h3⟩ := hq self1 fx1 rfl
      by_cases hm : option.enable_mkldnn = true
      · simp only [hm, if_true, Except.ok.injEq, Prod.mk.injEq] at h
        obtain ⟨rfl, rfl⟩ := h
        exact ⟨h1, h2, h3⟩
      · simp only [hm, if_false, Except.ok.injEq, Prod.mk.injEq] at h
        obtain ⟨rfl, rfl⟩ := h
        exact ⟨h1, h2, by simp [h3]⟩

/-- What the quantized branch leaves in the configuration when the accelerator
is compiled in and requested on GPU. -/
theorem InitFromPaddle.quantize_trt (self self' : PaddleBackend)
    (option : PaddleBackendOption) (fx : List Effect)
    (hg : option.use_gpu = true) (ht : option.enable_trt = true)
    (h : InitFromPaddle.quantize true self option true = .ok (self', fx)) :
    ∃ r, GetDynamicShapeFromOption option [] [] [] = .ok r ∧
      self'.config_.tensorrt = some ⟨option.trt_option.max_workspace_size, 32, 3,
        PrecisionType.kInt8, decide (option.trt_option.serialize_file ≠ ""), some false⟩ ∧
      self'.config_.trt_dynamic_shape =
        (if r.min_shape.size > 0 then some ⟨r.min_shape, r.max_shape, r.opt_shape⟩
         else self.config_.trt_dynamic_shape) := by
  unfold InitFromPaddle.quantize at h
  simp only [hg, ht, if_true] at h
  generalize hs : SetTRTDynamicShapeToConfig _ option = x at h
  cases x with
  | error a => cases h
  | ok res =>
    obtain ⟨self2, fx2⟩ := res
    obtain ⟨r, hr, hself, -⟩ := SetTRTDynamicShapeToConfig_inv _ _ _ _ hs
    refine ⟨r, hr, ?_⟩
    by_cases hm : option.enable_mkldnn = true
    · simp only [hm, if_true, Except.ok.injEq, Prod.mk.injEq] at h
      obtain ⟨rfl, -⟩ := h
      subst hself
      constructor
      · split <;> rfl
      · split <;> rfl
    · simp only [hm, if_false, Except.ok.injEq, Prod.mk.injEq] at h
      obtain ⟨rfl, -⟩ := h
      subst hself
      constructor
      · split <;> rfl
      · split <;> rfl

theorem InitFromPaddle.quantize_ok (trt : Bool) (self : PaddleBackend)
    (option : PaddleBackendOption) (q : Bool) (hb : BoundsComplete option) :
    ∃ res, InitFromPaddle.quantize trt self option q = .ok res := by
  unfold InitFromPaddle.quantize
  cases q
  · exact ⟨_, rfl⟩
  · simp only [if_true]
    by_cases hg : option.use_gpu = true
    · by_cases ht : option.enable_trt = true
      · cases trt
        · simp only [hg, ht, if_true, Bool.false_eq_true, if_false]
          split <;> exact ⟨_, rfl⟩
        · simp only [hg, ht, if_true]
          generalize hs : SetTRTDynamicShapeToConfig _ option = x
          cases x with
          | error a =>
            obtain ⟨res, hres⟩ := (SetTRTDynamicShapeToConfig_ok_iff _ option).mpr hb
            rw [hres] at hs; cases hs
          | ok res =>
            obtain ⟨self2, fx2⟩ := res
            simp only
            split <;> exact ⟨_, rfl⟩
      · simp only [hg, ht, if_true, Bool.false_eq_true, if_false]
        split <;> exact ⟨_, rfl⟩
    · have hg' : option.use_gpu = false := by simpa using hg
      simp only [hg', Bool.false_eq_true, if_false]
      split <;> exact ⟨_, rfl⟩

theorem InitFromPaddle.generate_quiet (e : Env) (model_file params_file path : String)
    (option : PaddleBackendOption) (fx : List Effect)
    (h : InitFromPaddle.generate e model_file params_file path option = .ok fx) :
    Quiet fx := by
  unfold InitFromPaddle.generate at h
  simp only at h
  generalize GetDynamicShapeFromOption option [] [] [] = x at h
  cases x with
  | error a => cases h
  | ok r =>
    simp only at h
    generalize CollectShapeRun _ _ r.max_shape = x1 at h
    cases x1 with
    | error a => cases h
    | ok p1 =>
      simp only at h
      generalize CollectShapeRun _ _ r.min_shape = x2 at h
      cases x2 with
      | error a => cases h
      | ok p2 =>
        simp only at h
        generalize CollectShapeRun _ _ r.opt_shape = x3 at h
        cases x3 with
        | error a => cases h
        | ok p3 =>
          simp only [Except.ok.injEq] at h
          subst h
          simp

theorem InitFromPaddle.collect_inv (e : Env) (self self' : PaddleBackend)
    (model_file params_file : String) (option : PaddleBackendOption) (fx : List Effect)
    (h : InitFromPaddle.collect e self model_file params_file option = .ok (self', fx)) :
    (self' = self ∨ self' = { self with config_ :=
        self.config_.EnableTunedTensorRtDynamicShape (shapeRangeInfoPath e model_file) false }) ∧
      Quiet fx := by
  unfold InitFromPaddle.collect at h
  by_cases hc : (e.ENABLE_TRT_BACKEND && option.collect_shape) = true
  · simp only [hc, if_true] at h
    generalize hg : (if (!e.CheckFileExists _) = true then _ else _ :
      Except Abort (List Effect)) = gen at h
    cases gen with
    | error a => cases h
    | ok fx1 =>
      simp only [Except.ok.injEq, Prod.mk.injEq] at h
      obtain ⟨rfl, rfl⟩ := h
      refine ⟨Or.inr rfl, ?_⟩
      have hq : Quiet fx1 := by
        split at hg
        · exact InitFromPaddle.generate_quiet _ _ _ _ _ _ hg
        · simp only [Except.ok.injEq] at hg
          subst hg
          simp
      simp [hq]
  · simp only [hc, Bool.false_eq_true, if_false, Except.ok.injEq, Prod.mk.injEq] at h
    obtain ⟨rfl, rfl⟩ := h
    exact ⟨Or.inl rfl, by simp⟩

theorem InitFromPaddle.collect_ok (e : Env) (self : PaddleBackend)
    (model_file params_file : String) (option : PaddleBackendOption)
    (hgen : e.ENABLE_TRT_BACKEND = true → option.collect_shape = true →
      e.CheckFileExists (shapeRangeInfoPath e model_file) = false →
      ∃ fx, InitFromPaddle.generate e model_file params_file (shapeRangeInfoPath e model_file)
        option = .ok fx) :
    ∃ res, InitFromPaddle.collect e self model_file params_file option = .ok res := by
  unfold InitFromPaddle.collect
  by_cases hc : (e.ENABLE_TRT_BACKEND && option.collect_shape) = true
  · simp only [hc, if_true]
    have hc' := hc
    simp only [Bool.and_eq_true] at hc'
    by_cases hf : e.CheckFileExists (shapeRangeInfoPath e model_file) = true
    · simp only [shapeRangeInfoPath] at hf
      simp only [hf, Bool.not_true, Bool.false_eq_true, if_false]
      exact ⟨_, rfl⟩
    · have hf' : e.CheckFileExists (shapeRangeInfoPath e model_file) = false := by simpa using hf
      obtain ⟨fx, hfx⟩ := hgen hc'.1 hc'.2 hf'
      simp only [shapeRangeInfoPath] at hf' hfx
      simp only [hf', Bool.not_false, if_true, hfx]
      exact ⟨_, rfl⟩
  · simp only [hc, Bool.false_eq_true, if_false]
    exact ⟨_, rfl⟩

theorem InitFromPaddle_initialized_eq (e : Env) (self : PaddleBackend)
    (model_file params_file : String) (option : PaddleBackendOption)
    (h : self.initialized_ = true) :
    InitFromPaddle e self model_file params_file option
      = .ok (false, self,
          [FDERROR "PaddleBackend is already initlized, cannot initialize again."]) := by
  simp [InitFromPaddle, h]

theorem InitFromPaddle_inv (e : Env) (self self' : PaddleBackend)
    (model_file params_file : String) (option : PaddleBackendOption) (ret : Bool)
    (fx : List Effect) (h0 : self.initialized_ = false)
    (h : InitFromPaddle e self model_file params_file option = .ok (ret, self', fx)) :
    ∃ self1 fx1,
      BuildOption e.ENABLE_TRT_BACKEND
        { self with config_ := self.config_.SetModel model_file params_file } option
        = .ok (self1, fx1) ∧
      ((e.ReadBinaryFromFile model_file = none ∧ ret = false ∧ self' = self1 ∧ fx = fx1) ∨
       (∃ contents self2 fx2 self3 fx3,
          e.ReadBinaryFromFile model_file = some contents ∧
          InitFromPaddle.quantize e.ENABLE_TRT_BACKEND self1 option
            (e.PaddleReader contents).is_quantize_model = .ok (self2, fx2) ∧
          InitFromPaddle.collect e
            { self2 with
              inputs_desc_ := (e.PaddleReader contents).inputs.map (InitFromPaddle.desc e)
              outputs_desc_ := (e.PaddleReader contents).outputs.map (InitFromPaddle.desc e) }
            model_file params_file option = .ok (self3, fx3) ∧
          ret = true ∧
          self' = { self3 with predictor_ := some (e.CreatePredictor self3.config_)
                               initialized_ := true } ∧
          fx = fx1 ++ fx2 ++ fx3 ++ [Effect.CreatePredictor self3.config_])) := by
  unfold InitFromPaddle at h
  have hn : ¬ (self.initialized_ = true) := by rw [h0]; decide
  rw [if_neg hn] at h
  simp only at h
  generalize hb : BuildOption e.ENABLE_TRT_BACKEND _ option = x at h
  cases x with
  | error a => cases h
  | ok res =>
    obtain ⟨self1, fx1⟩ := res
    refine ⟨self1, fx1, rfl, ?_⟩
    simp only at h
    cases hr : e.ReadBinaryFromFile model_file with
    | none =>
      rw [hr] at h
      simp only [Except.ok.injEq, Prod.mk.injEq] at h
      exact Or.inl ⟨rfl, h.1.symm, h.2.1.symm, h.2.2.symm⟩
    | some contents =>
      rw [hr] at h
      simp only at h
      generalize hq : InitFromPaddle.quantize e.ENABLE_TRT_BACKEND self1 option _ = y at h
      cases y with
      | error a => cases h
      | ok res2 =>
        obtain ⟨self2, fx2⟩ := res2
        simp only at h
        generalize hc : InitFromPaddle.collect e _ model_file params_file option = z at h
        cases z with
        | error a => cases h
        | ok res3 =>
          obtain ⟨self3, fx3⟩ := res3
          simp only [Except.ok.injEq, Prod.mk.injEq] at h
          exact Or.inr ⟨contents, self2, fx2, self3, fx3, rfl, hq, hc, h.1.symm, h.2.1.symm,
            h.2.2.symm⟩

theorem InitFromPaddle_ok (e : Env) (self : PaddleBackend)
    (model_file params_file contents : String) (option : PaddleBackendOption)
    (h0 : self.initialized_ = false) (hb : BoundsComplete option)
    (hread : e.ReadBinaryFromFile model_file = some contents)
    (hgen : e.ENABLE_TRT_BACKEND = true → option.collect_shape = true →
      e.CheckFileExists (shapeRangeInfoPath e model_file) = false →
      ∃ fx, InitFromPaddle.generate e model_file params_file (shapeRangeInfoPath e model_file)
        option = .ok fx) :
    ∃ self' fx, InitFromPaddle e self model_file params_file option = .ok (true, self', fx) := by
  unfold InitFromPaddle
  simp only [h0, Bool.false_eq_true, if_false]
  generalize hbo : BuildOption e.ENABLE_TRT_BACKEND _ option = x
  cases x with
  | error a =>
    obtain ⟨res, hres⟩ := (BuildOption_ok_iff e.ENABLE_TRT_BACKEND _ option).mpr
      (Or.inr (Or.inr (Or.inr hb)))
    rw [hres] at hbo; cases hbo
  | ok res =>
    obtain ⟨self1, fx1⟩ := res
    simp only [hread]
    generalize hq : InitFromPaddle.quantize e.ENABLE_TRT_BACKEND self1 option _ = y
    cases y with
    | error a =>
      obtain ⟨res, hres⟩ := InitFromPaddle.quantize_ok e.ENABLE_TRT_BACKEND self1 option
        (e.PaddleReader contents).is_quantize_model hb
      rw [hres] at hq; cases hq
    | ok res2 =>
      obtain ⟨self2, fx2⟩ := res2
      simp only
      generalize hc : InitFromPaddle.collect e _ model_file params_file option = z
      cases z with
      | error a =>
        obtain ⟨res, hres⟩ := InitFromPaddle.collect_ok e _ model_file params_file option hgen
        rw [hres] at hc; cases hc
      | ok res3 =>
        obtain ⟨self3, fx3⟩ := res3
        exact ⟨_, _, rfl⟩

theorem InitFromPaddle_unreadable_ok (e : Env) (self : PaddleBackend)
    (model_file params_file : String) (option : PaddleBackendOption)
    (h0 : self.initialized_ = false)
    (hb : e.ENABLE_TRT_BACKEND = false ∨ option.use_gpu = false ∨ option.enable_trt = false
      ∨ BoundsComplete option)
    (hread : e.ReadBinaryFromFile model_file = none) :
    ∃ self' fx, InitFromPaddle e self model_file params_file option = .ok (false, self', fx) := by
  unfold InitFromPaddle
  simp only [h0, Bool.false_eq_true, if_false]
  generalize hbo : BuildOption e.ENABLE_TRT_BACKEND _ option = x
  cases x with
  | error a =>
    obtain ⟨res, hres⟩ := (BuildOption_ok_iff e.ENABLE_TRT_BACKEND _ option).mpr hb
    rw [hres] at hbo; cases hbo
  | ok res =>
    obtain ⟨self1, fx1⟩ := res
    simp only [hread]
    exact ⟨_, _, rfl⟩

/-! ## Lifecycle -/

theorem engineConstructions_quiet (fx : List Effect)
    (h : Quiet fx) : engineConstructions fx = 0 := by
  unfold engineConstructions
  rw [List.countP_eq_zero]
  intro ev hev
  simp [h ev hev]

theorem Infer_inv (self : PaddleBackend) (inputs outputs : List FDTensor) (r : InferResult)
    (h : Infer self inputs outputs = .ok r) :
    (r.self = self ∧ engineConstructions r.effects = 0) ∨
    (∃ p p', self.predictor_ = some p ∧ r.self = { self with predictor_ := some p' } ∧
      r.effects = []) := by
  unfold Infer at h
  split at h
  · simp only [Except.ok.injEq] at h
    subst h
    exact Or.inl ⟨rfl, rfl⟩
  · split at h
    · cases h
    · next p hp =>
      simp only [Except.ok.injEq] at h
      subst h
      exact Or.inr ⟨p, _, hp, rfl, rfl⟩

theorem InitFromPaddle_unreadable (e : Env) (self self' : PaddleBackend)
    (model_file params_file : String) (option : PaddleBackendOption) (ret : Bool)
    (fx : List Effect) (h0 : self.initialized_ = false)
    (hread : e.ReadBinaryFromFile model_file = none)
    (h : InitFromPaddle e self model_file params_file option = .ok (ret, self', fx)) :
    ret = false ∧ self'.initialized_ = false ∧ self'.predictor_ = self.predictor_ ∧
      engineConstructions fx = 0 := by
  obtain ⟨self1, fx1, hb, hcase⟩ := InitFromPaddle_inv _ _ _ _ _ _ _ _ h0 h
  obtain ⟨h1, h2, h3⟩ := BuildOption_quiet _ _ _ _ _ hb
  rcases hcase with ⟨-, hret, hself, hfx⟩ | ⟨contents, _, _, _, _, hr, -⟩
  · subst hret hself hfx
    exact ⟨rfl, by rw [h2]; exact h0, h1, engineConstructions_quiet _ h3⟩
  · rw [hread] at hr; cases hr

theorem step_lifecycle (e : Env) (self self' : PaddleBackend) (call : Call) (fx : List Effect)
    (n : Nat) (hinv : self.Inv) (hn : self.initialized_ = true ↔ n = 1) (hle : n ≤ 1)
    (h : step e self call = .ok (self', fx)) :
    self'.Inv ∧ (self'.initialized_ = true ↔ n + engineConstructions fx = 1) ∧
      n + engineConstructions fx ≤ 1 ∧ (self.initialized_ = true → self'.initialized_ = true) := by
  cases call with
  | BuildOption option =>
    simp only [step] at h
    obtain ⟨h1, h2, h3⟩ := BuildOption_quiet _ _ _ _ _ h
    have h4 := engineConstructions_quiet _ h3
    refine ⟨?_, ?_, ?_, ?_⟩
    · unfold PaddleBackend.Inv at hinv ⊢; rw [h1, h2]; exact hinv
    · rw [h2, h4]; simpa using hn
    · omega
    · intro hi; rw [h2]; exact hi
  | InitFromPaddle model_file params_file option =>
    simp only [step] at h
    split at h
    · cases h
    · next ret self1 fx1 hi =>
      simp only [Except.ok.injEq, Prod.mk.injEq] at h
      obtain ⟨rfl, rfl⟩ := h
      by_cases h0 : self.initialized_ = true
      · rw [InitFromPaddle_initialized_eq e self model_file params_file option h0] at hi
        simp only [Except.ok.injEq, Prod.mk.injEq] at hi
        obtain ⟨-, rfl, rfl⟩ := hi
        refine ⟨hinv, ?_, ?_, fun hi => hi⟩
        · simpa [engineConstructions, FDERROR, Effect.isCreatePredictor] using hn
        · simpa [engineConstructions, FDERROR, Effect.isCreatePredictor] using hle
      · have h0' : self.initialized_ = false := by simpa using h0
        have hn0 : n = 0 := by
          have : ¬ n = 1 := fun h1 => h0 (hn.mpr h1)
          omega
        obtain ⟨self1', fx1', hb, hcase⟩ := InitFromPaddle_inv _ _ _ _ _ _ _ _ h0' hi
        obtain ⟨h1, h2, h3⟩ := BuildOption_quiet _ _ _ _ _ hb
        rcases hcase with ⟨-, -, hself, hfx⟩ | ⟨contents, self2, fx2, self3, fx3, -, hq, hc, -,
          hself, hfx⟩
        · subst hself hfx
          have h4 := engineConstructions_quiet _ h3
          refine ⟨?_, ?_, ?_, ?_⟩
          · unfold PaddleBackend.Inv at hinv ⊢; rw [h1, h2]; exact hinv
          · rw [h2, h4]; simpa using hn
          · omega
          · intro hi; rw [h2]; exact hi
        · obtain ⟨-, -, hq3⟩ := InitFromPaddle.quantize_quiet _ _ _ _ _ _ hq
          obtain ⟨-, hc3⟩ := InitFromPaddle.collect_inv _ _ _ _ _ _ _ hc
          have hcount : engineConstructions fx1 = 1 := by
            subst hfx
            have e1 := engineConstructions_quiet _ h3
            have e2 := engineConstructions_quiet _ hq3
            have e3 := engineConstructions_quiet _ hc3
            unfold engineConstructions at e1 e2 e3 ⊢
            simp only [List.countP_append, e1, e2, e3]
            rfl
          subst hself
          refine ⟨?_, ?_, ?_, fun _ => rfl⟩
          · unfold PaddleBackend.Inv; simp
          · simp [hn0, hcount]
          · omega
  | Infer inputs outputs =>
    simp only [step] at h
    split at h
    · cases h
    · next r hr =>
      simp only [Except.ok.injEq, Prod.mk.injEq] at h
      obtain ⟨rfl, rfl⟩ := h
      rcases Infer_inv _ _ _ _ hr with ⟨hself, hfx⟩ | ⟨p, p', hp, hself, hfx⟩
      · rw [hself, hfx]
        exact ⟨hinv, by simpa using hn, by omega, fun hi => hi⟩
      · have hi : self.initialized_ = true := hinv.mpr (by simp [hp])
        rw [hself, hfx]
        refine ⟨?_, ?_, ?_, fun hi => hi⟩
        · unfold PaddleBackend.Inv; simp [hi]
        · simpa [engineConstructions] using hn
        · simpa [engineConstructions] using hle

theorem runCalls_lifecycle (calls : List (Env × Call)) (self self' : PaddleBackend)
    (fx : List Effect) (n : Nat) (hinv : self.Inv) (hn : self.initialized_ = true ↔ n = 1)
    (hle : n ≤ 1) (h : runCalls self calls = .ok (self', fx)) :
    self'.Inv ∧ (self'.initialized_ = true ↔ n + engineConstructions fx = 1) ∧
      n + engineConstructions fx ≤ 1 ∧ (self.initialized_ = true → self'.initialized_ = true) := by
  induction calls generalizing self fx n with
  | nil =>
    simp only [runCalls, Except.ok.injEq, Prod.mk.injEq] at h
    obtain ⟨rfl, rfl⟩ := h
    exact ⟨hinv, by simpa [engineConstructions] using hn,
      by simpa [engineConstructions] using hle, fun hi => hi⟩
  | cons c calls ih =>
    obtain ⟨e, call⟩ := c
    simp only [runCalls] at h
    split at h
    · cases h
    · next self1 fx1 hs =>
      split at h
      · cases h
      · next self2 fx2 hr =>
        simp only [Except.ok.injEq, Prod.mk.injEq] at h
        obtain ⟨rfl, rfl⟩ := h
        obtain ⟨a1, a2, a3, a4⟩ := step_lifecycle e self self1 call fx1 n hinv hn hle hs
        obtain ⟨b1, b2, b3, b4⟩ := ih self1 fx2 (n + engineConstructions fx1) a1 a2 a3 hr
        have hsum : engineConstructions (fx1 ++ fx2)
            = engineConstructions fx1 + engineConstructions fx2 := by
          simp [engineConstructions, List.countP_append]
        rw [hsum, ← Nat.add_assoc]
        exact ⟨b1, b2, b3, fun hi => b4 (a4 hi)⟩

/-- C10: in every state reached from a freshly constructed instance by a
sequence of `BuildOption`, `InitFromPaddle` and `Infer` calls (each in any
environment), the initialized flag is set exactly when the engine of the backend
exists, exactly when it has been constructed once, and it has been constructed
at most once; further calls never clear a set flag; and an `InitFromPaddle` call
on a not yet initialized backend with an unreadable model file returns false,
leaves the flag false and the engine absent and constructs no engine. -/
theorem lifecycle_invariant (calls : List (Env × Call)) (self : PaddleBackend)
    (fx : List Effect) (h : runCalls {} calls = .ok (self, fx)) :
    (self.initialized_ = true ↔ self.predictor_.isSome = true) ∧
    (self.initialized_ = true ↔ engineConstructions fx = 1) ∧
    engineConstructions fx ≤ 1 ∧
    (∀ calls' self' fx', runCalls self calls' = .ok (self', fx') →
      self.initialized_ = true → self'.initialized_ = true) ∧
    (∀ (e : Env) (model_file params_file : String) (option : PaddleBackendOption),
      e.ReadBinaryFromFile model_file = none → self.initialized_ = false →
      (∀ ret self' fx', InitFromPaddle e self model_file params_file option = .ok (ret, self', fx') →
        ret = false ∧ self'.initialized_ = false ∧ self'.predictor_ = none ∧
          engineConstructions fx' = 0) ∧
      ((e.ENABLE_TRT_BACKEND = false ∨ option.use_gpu = false ∨ option.enable_trt = false
          ∨ BoundsComplete option) →
        ∃ self' fx', InitFromPaddle e self model_file params_file option
          = .ok (false, self', fx'))) := by
  have hfresh : ({} : PaddleBackend).Inv := by simp [PaddleBackend.Inv]
  obtain ⟨h1, h2, h3, -⟩ := runCalls_lifecycle calls {} self fx 0 hfresh (by simp) (by omega) h
  simp only [Nat.zero_add] at h2 h3
  refine ⟨h1, h2, h3, ?_, ?_⟩
  · intro calls' self' fx' hrun
    exact (runCalls_lifecycle calls' self self' fx' (engineConstructions fx) h1 h2 h3 hrun).2.2.2
  · intro e model_file params_file option hread h0
    refine ⟨?_, fun hb => InitFromPaddle_unreadable_ok e self model_file params_file option h0 hb
      hread⟩
    intro ret self' fx' hinit
    obtain ⟨a1, a2, a3, a4⟩ := InitFromPaddle_unreadable _ _ _ _ _ _ _ _ h0 hread hinit
    refine ⟨a1, a2, ?_, a4⟩
    rw [a3]
    have hnone : ¬ (self.predictor_.isSome = true) := fun hs => by
      have := h1.mpr hs
      rw [h0] at this
      cases this
    cases hp : self.predictor_ with
    | none => rfl
    | some p => rw [hp] at hnone; simp at hnone

/-- Witness of C10: a failed initialization (unreadable file), a successful
one, an inference, a second initialization attempt and a `BuildOption` call. -/
theorem lifecycle_invariant_witness :
    ∃ self fx,
      runCalls {}
        [(unreadableEnv, .InitFromPaddle "model.pdmodel" "model.pdiparams" {}),
         (sampleEnv, .InitFromPaddle "model.pdmodel" "model.pdiparams" {}),
         (sampleEnv, .Infer [{ name := "x" }] []),
         (sampleEnv, .InitFromPaddle "model.pdmodel" "model.pdiparams" {}),
         (sampleEnv, .BuildOption {})] = .ok (self, fx) ∧
      self.initialized_ = true ∧ self.predictor_.isSome = true ∧
      engineConstructions fx = 1 := by
  have h : runCalls {}
      [(unreadableEnv, .InitFromPaddle "model.pdmodel" "model.pdiparams" {}),
       (sampleEnv, .InitFromPaddle "model.pdmodel" "model.pdiparams" {}),
       (sampleEnv, .Infer [{ name := "x" }] []),
       (sampleEnv, .InitFromPaddle "model.pdmodel" "model.pdiparams" {}),
       (sampleEnv, .BuildOption {})] = .ok (_, _) := rfl
  have hinit := (lifecycle_invariant _ _ _ h).1
  have hcount := (lifecycle_invariant _ _ _ h).2.1
  exact ⟨_, _, h, rfl, hinit.mp rfl, hcount.mp rfl⟩

/-- C7 (amended): on a not yet initialized instance, with the accelerator
compiled in, GPU device and accelerator enabled in the option and a readable
model reported as quantized, the engine configuration after a returning
`InitFromPaddle` has the accelerator enabled with int8 precision, max batch 32,
min-subgraph size 3, the calibration flag false, and static caching enabled
exactly when the option names a serialize file; the dynamic-shape bounds are
those re-derived from the option whenever the option declares any; and the call
does return true when the shape bounds are complete and the generation of the
shape range info file, where it is needed, does not abort. -/
theorem InitFromPaddle_quantized_trt (e : Env) (self : PaddleBackend)
    (model_file params_file contents : String) (option : PaddleBackendOption)
    (h0 : self.initialized_ = false) (htrt : e.ENABLE_TRT_BACKEND = true)
    (hread : e.ReadBinaryFromFile model_file = some contents)
    (hq : (e.PaddleReader contents).is_quantize_model = true)
    (hg : option.use_gpu = true) (ht : option.enable_trt = true) :
    (∀ ret self' fx,
      InitFromPaddle e self model_file params_file option = .ok (ret, self', fx) →
      ret = true ∧
      self'.config_.tensorrt = some ⟨option.trt_option.max_workspace_size, 32, 3,
        PrecisionType.kInt8, decide (option.trt_option.serialize_file ≠ ""), some false⟩ ∧
      ∃ r, GetDynamicShapeFromOption option [] [] [] = .ok r ∧
        (option.trt_option.min_shape ≠ [] →
          self'.config_.trt_dynamic_shape = some ⟨r.min_shape, r.max_shape, r.opt_shape⟩)) ∧
    (BoundsComplete option →
      (option.collect_shape = true →
        e.CheckFileExists (shapeRangeInfoPath e model_file) = false →
        ∃ fx, InitFromPaddle.generate e model_file params_file (shapeRangeInfoPath e model_file)
          option = .ok fx) →
      ∃ self' fx, InitFromPaddle e self model_file params_file option = .ok (true, self', fx)) := by
  constructor
  · intro ret self' fx h
    obtain ⟨self1, fx1, -, hcase⟩ := InitFromPaddle_inv _ _ _ _ _ _ _ _ h0 h
    rcases hcase with ⟨hr, -⟩ | ⟨contents', self2, fx2, self3, fx3, hr, hquant, hc, hret, hself, -⟩
    · rw [hread] at hr; cases hr
    · rw [hread] at hr
      simp only [Option.some.injEq] at hr
      subst hr
      rw [htrt, hq] at hquant
      obtain ⟨r, hr, htr, hdyn⟩ := InitFromPaddle.quantize_trt _ _ _ _ hg ht hquant
      obtain ⟨hself3, -⟩ := InitFromPaddle.collect_inv _ _ _ _ _ _ _ hc
      have hcfg : self'.config_.tensorrt = self2.config_.tensorrt ∧
          self'.config_.trt_dynamic_shape = self2.config_.trt_dynamic_shape := by
        rcases hself3 with h3 | h3 <;> subst hself <;> subst h3 <;> exact ⟨rfl, rfl⟩
      refine ⟨hret, by rw [hcfg.1]; exact htr, r, hr, ?_⟩
      intro hne
      have hpos := (GetDynamicShapeFromOption_min_nonempty option r hr).mpr hne
      rw [hcfg.2, hdyn, if_pos hpos]
  · intro hb hgen
    exact InitFromPaddle_ok e self model_file params_file contents option h0 hb hread
      (fun _ => hgen)

/-- Witness of C7: GPU, accelerator enabled, bounds for `x`, no serialize file. -/
theorem InitFromPaddle_quantized_trt_witness :
    ∃ self' fx,
      InitFromPaddle sampleEnv {} "model.pdmodel" "model.pdiparams"
        { use_gpu := true, enable_trt := true,
          trt_option := { min_shape := [("x", [1, 3])], max_shape := [("x", [8, 3])],
                          opt_shape := [("x", [4, 3])] } } = .ok (true, self', fx) ∧
      self'.config_.tensorrt = some ⟨1073741824, 32, 3, PrecisionType.kInt8, false, some false⟩ ∧
      self'.config_.trt_dynamic_shape
        = some ⟨[("x", [1, 3])], [("x", [8, 3])], [("x", [4, 3])]⟩ := by
  have hthm := InitFromPaddle_quantized_trt sampleEnv {} "model.pdmodel" "model.pdiparams"
    "model"
    { use_gpu := true, enable_trt := true,
      trt_option := { min_shape := [("x", [1, 3])], max_shape := [("x", [8, 3])],
                      opt_shape := [("x", [4, 3])] } } rfl rfl rfl rfl rfl rfl
  obtain ⟨self', fx, h⟩ := hthm.2
    (by intro k hk; simp [StdMap.keys] at hk ⊢; exact hk)
    (fun hc => absurd hc (by decide))
  obtain ⟨-, h2, r, hr, h3⟩ := hthm.1 true self' fx h
  refine ⟨self', fx, h, h2, ?_⟩
  have hr' : r = ⟨[("x", [8, 3])], [("x", [1, 3])], [("x", [4, 3])],
      ["x: the max shape = [8, 3], the min shape = [1, 3], the opt shape = [4, 3]"]⟩ := by
    have : GetDynamicShapeFromOption
        { use_gpu := true, enable_trt := true,
          trt_option := { min_shape := [("x", [1, 3])], max_shape := [("x", [8, 3])],
                          opt_shape := [("x", [4, 3])] } } [] [] []
        = .ok ⟨[("x", [8, 3])], [("x", [1, 3])], [("x", [4, 3])],
            ["x: the max shape = [8, 3], the min shape = [1, 3], the opt shape = [4, 3]"]⟩ := by
      decide
    rw [this] at hr
    cases hr
    rfl
  rw [h3 (by decide), hr']

/-- Counterexample to C7 as stated: with a serialize file named in the option,
the quantized branch enables the accelerator with static caching on. -/
theorem InitFromPaddle_quantized_trt_counterexample :
    ∃ self' fx trt,
      InitFromPaddle sampleEnv {} "model.pdmodel" "model.pdiparams"
        { use_gpu := true, enable_trt := true,
          trt_option := { serialize_file := "trt.cache" } } = .ok (true, self', fx) ∧
      self'.config_.tensorrt = some trt ∧ trt.precision = PrecisionType.kInt8 ∧
      trt.use_calib_mode = some false ∧ trt.use_static = true :=
  ⟨_, _, _, rfl, rfl, rfl, rfl, rfl⟩

/-- C8 at the failing input: with a quantized model on GPU, `InitFromPaddle`
enables the int8 fusion variant when the fusion flag is set, and logs the
warning about CPU inference when it is not. -/
theorem InitFromPaddle_quantized_gpu_mkldnn :
    (∃ self' fx,
      InitFromPaddle sampleEnv {} "model.pdmodel" "model.pdiparams"
        { use_gpu := true, enable_mkldnn := true } = .ok (true, self', fx) ∧
      self'.config_.use_gpu = true ∧ self'.config_.mkldnn_int8 = true) ∧
    (∃ self' fx,
      InitFromPaddle sampleEnv {} "model.pdmodel" "model.pdiparams"
        { use_gpu := true, enable_mkldnn := false } = .ok (true, self', fx) ∧
      self'.config_.use_gpu = true ∧
      FDWARNING "The loaded model is a quantized model, while inference on CPU, please enable MKLDNN to get better performance." ∈ fx) :=
  ⟨⟨_, _, rfl, rfl, rfl⟩, ⟨_, _, rfl, rfl, by decide⟩⟩

end fastdeploy
